import Mathlib

/-!
# Verification of parts of the IBM Cloud provider

Definitions come first, theorems after them.  The largest part is a shallow
embedding of `collectAllProviders` from
`ibm/data_source_ibm_scc_si_providers.go` together with the properties the
specification states about it; the name rule of Activity Tracker routes, the
instance action callbacks, the composite IDs of AppID applications and roles,
the request of Cloud Directory templates and the callbacks of the locations of
a private DNS custom resolver follow.

The remote client is a stateful object outside the repository; it is embedded
as a state-passing function.  The `for { ... }` loop has no bound, so the
embedding of the loop carries a fuel argument and answers `none` when the fuel
is used up before the loop has left.
-/

namespace SccSiProviders

/-! ## Machine integers -/

/-- Two's complement wrap-around of a mathematical integer into `int64`. -/
def wrapInt64 (x : Int) : Int := (x + 2 ^ 63) % 2 ^ 64 - 2 ^ 63

/-- The values an `int64` can hold. -/
def isInt64 (x : Int) : Prop := -(2 ^ 63) ≤ x ∧ x < 2 ^ 63

instance (x : Int) : Decidable (isInt64 x) := by
  unfold isInt64; infer_instance

/-! ## Data model -/

/-- The request object `findingsv1.ListProvidersOptions`: `Skip` and `Limit`
are `*int64`, `none` is the nil pointer. -/
structure ListProvidersOptions where
  Skip : Option Int
  Limit : Option Int
deriving DecidableEq, Repr

/-- The page `findingsv1.APIListProvidersResponse`: the providers of the page
and the `*int64` total count (`none` is the nil pointer). -/
structure APIListProvidersResponse (α : Type) where
  Providers : List α
  TotalCount : Option Int
deriving DecidableEq, Repr

/-- What a failing `ListProvidersWithContext` call hands back: the text of
`err` and the text of the detailed `response`. -/
structure FetchFailure where
  err : String
  response : String
deriving DecidableEq, Repr

/-- One answer of `ListProvidersWithContext`: a failure (`err != nil`) or a
page. -/
abbrev FetchResult (α : Type) := Except FetchFailure (APIListProvidersResponse α)

/-- The client method `ListProvidersWithContext` as a state-passing function:
it receives the options and the state of the remote side, and answers with a
page or a failure and the next state. -/
abbrev ListProviders (σ α : Type) := ListProvidersOptions → σ → FetchResult α × σ

/-- How a call of `collectAllProviders` ends: it returns its three results
(`finalList`, where `none` is the nil slice, `totalCount`, and the error, where
`none` is nil), or it dereferences a nil `TotalCount`. -/
inductive Outcome (α : Type) where
  | returned (finalList : Option (List α)) (totalCount : Option Int) (err : Option String)
  | nilDereference
deriving DecidableEq, Repr

/-- What the three `if ... break` tests decide after one fetch. -/
inductive Decision where
  | stop
  | again
  | nilDereference
deriving DecidableEq, Repr

/-! ## The loop of `collectAllProviders` -/

/-- The test of line 135:
`options.Limit != nil && int64(len(finalList)) == *options.Limit`. -/
def limitRule (options : ListProvidersOptions) (n : Int) : Bool :=
  match options.Limit with
  | some limit => decide (n = limit)
  | none => false

/-- The test of line 140:
`options.Skip != nil && int64(len(finalList)) == *resp.TotalCount-*options.Skip`.
The answer `none` is the dereference of a nil `TotalCount`. -/
def skipRule (options : ListProvidersOptions) (n : Int) (totalCount : Option Int) :
    Option Bool :=
  match options.Skip with
  | none => some false
  | some skip =>
    match totalCount with
    | none => none
    | some t => some (decide (n = wrapInt64 (t - skip)))

/-- The test of line 145:
`options.Limit == nil && int64(len(finalList)) == *resp.TotalCount`.
The answer `none` is the dereference of a nil `TotalCount`. -/
def noLimitRule (options : ListProvidersOptions) (n : Int) (totalCount : Option Int) :
    Option Bool :=
  match options.Limit with
  | some _ => some false
  | none =>
    match totalCount with
    | none => none
    | some t => some (decide (n = t))

/-- The three tests of lines 134-147 in their order; `n` is
`int64(len(finalList))` after the append. -/
def loopDecision (options : ListProvidersOptions) (n : Int) (totalCount : Option Int) :
    Decision :=
  if limitRule options n then Decision.stop
  else
    match skipRule options n totalCount with
    | none => Decision.nilDereference
    | some true => Decision.stop
    | some false =>
      match noLimitRule options n totalCount with
      | none => Decision.nilDereference
      | some true => Decision.stop
      | some false => Decision.again

/-- The text `fmt.Errorf("%s\n%s", err, response)` produces. -/
def errorText (e : FetchFailure) : String := e.err ++ "\n" ++ e.response

/-- The `for` loop of lines 124-148 followed by the return of line 150.  The
arguments after the fuel are the state of the remote side and the local
variables `finalList` and `totalCount`.  The result pairs the outcome with
the state of the remote side when the function leaves. -/
def collectLoop {σ α : Type} (fetch : ListProviders σ α) (options : ListProvidersOptions) :
    Nat → σ → List α → Option Int → Option (Outcome α × σ)
  | 0, _, _, _ => none
  | fuel + 1, s, finalList, _ =>
    match fetch options s with
    | (Except.error e, s1) =>
      some (Outcome.returned none (some 0) (some (errorText e)), s1)
    | (Except.ok resp, s1) =>
      let totalCount := resp.TotalCount
      let finalList := finalList ++ resp.Providers
      match loopDecision options (finalList.length : Int) resp.TotalCount with
      | Decision.stop => some (Outcome.returned (some finalList) totalCount none, s1)
      | Decision.nilDereference => some (Outcome.nilDereference, s1)
      | Decision.again => collectLoop fetch options fuel s1 finalList totalCount

/-- The function `collectAllProviders`: `finalList` starts empty and
`totalCount` starts as a pointer to 0. -/
def collectAllProviders {σ α : Type} (fetch : ListProviders σ α)
    (options : ListProvidersOptions) (fuel : Nat) (s : σ) : Option (Outcome α × σ) :=
  collectLoop fetch options fuel s [] (some 0)

/-! ## Fetch sources -/

/-- A fetch source that answers its `i`-th call (counted from 0) with
`script i`, whatever the options; its state is the number of calls answered so
far. -/
def scripted {α : Type} (script : Nat → FetchResult α) : ListProviders Nat α :=
  fun _ i => (script i, i + 1)

/-- The state of the remote side after `i` calls with the same options. -/
def stateAfter {σ α : Type} (fetch : ListProviders σ α) (options : ListProvidersOptions)
    (s : σ) : Nat → σ
  | 0 => s
  | i + 1 => (fetch options (stateAfter fetch options s i)).2

/-- The answers a source gives, call after call, when it is started in state
`s` and always receives the same options. -/
def scriptOf {σ α : Type} (fetch : ListProviders σ α) (options : ListProvidersOptions)
    (s : σ) : Nat → FetchResult α :=
  fun i => (fetch options (stateAfter fetch options s i)).1

/-- The items of a list of pages, page after page. -/
def allProviders {α : Type} (pages : List (APIListProvidersResponse α)) : List α :=
  (pages.map (fun p => p.Providers)).flatten

/-- The page with the given items and total count. -/
def page {α : Type} (items : List α) (total : Int) : APIListProvidersResponse α :=
  { Providers := items, TotalCount := some total }

/-- The script that answers with the given pages in turn and with `rest`
once they are used up. -/
def pagesThen {α : Type} (pages : List (APIListProvidersResponse α))
    (rest : Nat → FetchResult α) : Nat → FetchResult α :=
  fun i =>
    match pages[i]? with
    | some p => Except.ok p
    | none => rest (i - pages.length)

/-- The script of a source that has nothing more to give: an empty page with
the given total count, for ever. -/
def emptyPages {α : Type} (total : Int) : Nat → FetchResult α :=
  fun _ => Except.ok (page [] total)

/-- The script answers the calls `i`, `i + 1`, ... with the given pages in
turn. -/
def serves {α : Type} (script : Nat → FetchResult α) (i : Nat)
    (pages : List (APIListProvidersResponse α)) : Prop :=
  ∀ m p, pages[m]? = some p → script (i + m) = Except.ok p

/-- Ten items served in pages of three, each page reporting the total 10. -/
def pagesOfThree : List (APIListProvidersResponse Nat) :=
  [page [0, 1, 2] 10, page [3, 4, 5] 10, page [6, 7, 8] 10, page [9] 10]

/-- A failure used in examples. -/
def gatewayTimeout : FetchFailure := { err := "gateway timeout", response := "504" }

/-- Items 2 to 7 of a collection of eight, served in pages of three. -/
def skippedPagesOfThree : List (APIListProvidersResponse Nat) :=
  [page [2, 3, 4] 8, page [5, 6, 7] 8]

/-- Two pages whose total counts differ. -/
def driftingPages : List (APIListProvidersResponse Nat) :=
  [page [1] 5, page [2] 2]

/-- The termination policy in the words of the specification, for an
accumulator of `n` items and a page reporting `total`: stop when a limit is
given and `n` equals it, or a skip is given and `n` equals `total - skip`, or
neither is given and `n` equals `total`. -/
def specTerminationPolicy (options : ListProvidersOptions) (n total : Int) : Bool :=
  (match options.Limit with
    | some limit => decide (n = limit)
    | none => false) ||
  (match options.Skip with
    | some skip => decide (n = total - skip)
    | none => false) ||
  (options.Skip.isNone && options.Limit.isNone && decide (n = total))

/-- The termination policy the three tests implement: the third rule asks
only that no limit is given. -/
def observedTerminationPolicy (options : ListProvidersOptions) (n total : Int) : Bool :=
  (match options.Limit with
    | some limit => decide (n = limit)
    | none => false) ||
  (match options.Skip with
    | some skip => decide (n = total - skip)
    | none => false) ||
  (options.Limit.isNone && decide (n = total))

/-- The items of the collection at the positions `skip` to
`min (skip + limit, N) - 1`, with an absent skip read as 0 and an absent limit
as unbounded. -/
def requestedSlice {α : Type} (collection : List α) (options : ListProvidersOptions) :
    List α :=
  let rest := collection.drop (options.Skip.getD 0).toNat
  match options.Limit with
  | none => rest
  | some limit => rest.take limit.toNat

/-- A stateless server over a fixed collection: every call is answered with
the slice the options ask for and with the size of the collection as total
count.  Its state only counts the calls. -/
def statelessServer {α : Type} (collection : List α) : ListProviders Nat α :=
  fun options calls =>
    (Except.ok (page (requestedSlice collection options) (collection.length : Int)),
      calls + 1)

/-- A source that notes the options of every call it receives next to the
state of the source it wraps. -/
def recording {σ α : Type} (fetch : ListProviders σ α) :
    ListProviders (σ × List ListProvidersOptions) α :=
  fun options s => ((fetch options s.1).1, ((fetch options s.1).2, s.2 ++ [options]))

/-- `d.GetOk` on an integer attribute: the value and whether it is non-zero; an
attribute that is not configured reads as 0. -/
def getOkInt (configured : Option Int) : Option Int :=
  match configured with
  | none => none
  | some value => if value = 0 then none else some value

/-- Lines 85-92 of `dataSourceIBMSccSiProvidersRead`: the options built from
the configured `skip` and `limit`. -/
def listProvidersOptionsOf (skip limit : Option Int) : ListProvidersOptions :=
  { Skip := getOkInt skip, Limit := getOkInt limit }

/-- Lines 85-94 of `dataSourceIBMSccSiProvidersRead`: the options are built
from the configured `skip` and `limit` and handed to `collectAllProviders`. -/
def dataSourceCollect {σ α : Type} (fetch : ListProviders σ α) (skip limit : Option Int)
    (fuel : Nat) (s : σ) : Option (Outcome α × σ) :=
  collectAllProviders fetch (listProvidersOptionsOf skip limit) fuel s

/-- Three items and then a fourth, the total count growing from 3 to 4. -/
def growingPages : List (APIListProvidersResponse Nat) :=
  [page [0, 1, 2] 3, page [3] 4]

end SccSiProviders

/-! # The name rule of Activity Tracker routes

The validator of `ibm/resource_ibm_atracker_route.go`, lines 75-91. -/

namespace AtrackerRoute

/-- The character class `[a-zA-Z0-9 -._:]` of the pattern of line 83, read as
a regular expression reads it: the ranges `a-z`, `A-Z`, `0-9`, the range from
the space to the full stop that ` -.` denotes, and the characters `_` and `:`. -/
def inNameClass (c : Char) : Bool :=
  ('a' ≤ c && c ≤ 'z') || ('A' ≤ c && c ≤ 'Z') || ('0' ≤ c && c ≤ '9') ||
    (' ' ≤ c && c ≤ '.') || c == '_' || c == ':'

/-- The pattern `^[a-zA-Z0-9 -._:]+$` of line 83: one or more characters of
the class and nothing else. -/
def nameRegexpMatches (value : String) : Bool :=
  !value.data.isEmpty && value.data.all inNameClass

/-- Modelled from the spec: the helper behind `ValidateRegexpLen` is not among
the sources.  It accepts a value that matches the pattern and whose length
lies between `MinValueLength` and `MaxValueLength`. -/
def validateRegexpLen (minValueLength maxValueLength : Nat) (regexp : String → Bool)
    (value : String) : Bool :=
  regexp value && decide (minValueLength ≤ value.length) &&
    decide (value.length ≤ maxValueLength)

/-- The rule `resourceIBMAtrackerRouteValidator` registers for `name`: the
pattern of line 83 with the lengths 1 and 1000 of lines 84 and 85. -/
def validateName (value : String) : Bool :=
  validateRegexpLen 1 1000 nameRegexpMatches value

/-- The characters the description of line 29 allows in a name: letters,
digits and the special characters `(space) - . _ :`. -/
def allowedByDescription (c : Char) : Bool :=
  c.isAlpha || c.isDigit || c == ' ' || c == '-' || c == '.' || c == '_' || c == ':'

end AtrackerRoute

/-! # Instance actions

The callbacks of `ibm/resource_ibm_is_instance_action.go` up to the call of
`CreateInstanceAction`. -/

namespace InstanceAction

/-- Modelled from the spec: the constant `isInstanceStatusRunning` is declared
outside the sources; it is the status of a running instance. -/
def isInstanceStatusRunning : String := "running"

/-- Modelled from the spec: the constant `isInstanceActionStatusStopped` is
declared outside the sources; it is the status of a stopped instance. -/
def isInstanceActionStatusStopped : String := "stopped"

/-- The request `vpcv1.CreateInstanceActionOptions`; `Force` is a `*bool`. -/
structure CreateInstanceActionOptions where
  InstanceID : String
  Type_ : String
  Force : Option Bool
deriving DecidableEq, Repr

/-- The parts of `schema.ResourceData` the callbacks read and write: the ID,
the attributes `instance`, `action` (`none` once it has been set to nil) and
`force_action`. -/
structure ResourceData where
  id : String
  instanceID : String
  action : Option String
  forceAction : Bool
deriving DecidableEq, Repr

/-- The instance `GetInstance` hands back; `Status` is a `*string`. -/
structure Instance where
  Status : Option String
deriving DecidableEq, Repr

/-- What a failing service call hands back: the text of `err` and of the
detailed `response`. -/
structure ServiceFailure where
  err : String
  response : String
deriving DecidableEq, Repr

/-- How far a callback gets: it returns an error before any action request,
leaving the resource data as given, or it dereferences a nil `Status`, or it
reaches the call of `CreateInstanceAction` with the given request. -/
inductive Progress where
  | returnedError (d : ResourceData) (err : String)
  | nilDereference
  | submitted (d : ResourceData) (request : CreateInstanceActionOptions)
deriving DecidableEq, Repr

/-- The result of the state tests of lines 122-128 and 211-217. -/
inductive StateCheck where
  | passed
  | failed (err : String)
  | nilDereference
deriving DecidableEq, Repr

/-- `d.GetOk` on a string attribute: the value and whether it is non-zero. -/
def getOkString (value : String) : Option String :=
  if value = "" then none else some value

/-- `d.GetOk` on a boolean attribute: the value and whether it is non-zero. -/
def getOkBool (value : Bool) : Option Bool :=
  if value then some value else none

/-- The comparison `*instance.Status != expected`; `none` is the dereference of
a nil `Status`. -/
def statusDiffers (inst : Instance) (expected : String) : Option Bool :=
  match inst.Status with
  | none => none
  | some status => some (decide (status ≠ expected))

/-- The `if ... else if ...` of lines 122-128 (and 211-217): the first
condition is `(stop || reboot) && status != running`, the second
`start && status != stopped`; the status is read only when the action matches. -/
def checkInstanceState (actiontype : String) (inst : Instance) : StateCheck :=
  match (if actiontype = "stop" ∨ actiontype = "reboot"
      then statusDiffers inst isInstanceStatusRunning else some false) with
  | none => StateCheck.nilDereference
  | some true =>
    StateCheck.failed ("Error with stop/reboot action: Cannot invoke stop/reboot action " ++
      "while instance is not in running state")
  | some false =>
    match (if actiontype = "start"
        then statusDiffers inst isInstanceActionStatusStopped else some false) with
    | none => StateCheck.nilDereference
    | some true =>
      StateCheck.failed ("Error with start action: Cannot invoke start action " ++
        "while instance is not in stopped state")
    | some false => StateCheck.passed

/-- Lines 102-137 of `resourceIBMISInstanceActionCreate`: from the start of the
callback to the call of `CreateInstanceAction`. -/
def resourceIBMISInstanceActionCreate (d : ResourceData) (vpcClient : Except String Unit)
    (getInstance : String → Except ServiceFailure Instance) : Progress :=
  match vpcClient with
  | Except.error err => Progress.returnedError d err
  | Except.ok _ =>
    let instanceId :=
      match getOkString d.instanceID with
      | some insId => insId
      | none => ""
    let actiontype := d.action.getD ""
    match getInstance instanceId with
    | Except.error e =>
      Progress.returnedError d
        ("Error Getting Instance (" ++ instanceId ++ "): " ++ e.err ++ "\n" ++ e.response)
    | Except.ok inst =>
      match checkInstanceState actiontype inst with
      | StateCheck.nilDereference => Progress.nilDereference
      | StateCheck.failed err => Progress.returnedError { d with action := none } err
      | StateCheck.passed =>
        let createinsactoptions : CreateInstanceActionOptions :=
          { InstanceID := instanceId, Type_ := actiontype, Force := none }
        let createinsactoptions :=
          match getOkBool d.forceAction with
          | some force => { createinsactoptions with Force := some force }
          | none => createinsactoptions
        Progress.submitted d createinsactoptions

/-- Lines 195-222 of `resourceIBMISInstanceActionUpdate`: from the start of the
callback to the call of `CreateInstanceAction`. -/
def resourceIBMISInstanceActionUpdate (d : ResourceData) (vpcClient : Except String Unit)
    (getInstance : String → Except ServiceFailure Instance) : Progress :=
  match vpcClient with
  | Except.error err => Progress.returnedError d err
  | Except.ok _ =>
    let actiontype := d.action.getD ""
    let id := d.id
    match getInstance id with
    | Except.error e =>
      Progress.returnedError d
        ("Error Getting Instance (" ++ id ++ "): " ++ e.err ++ "\n" ++ e.response)
    | Except.ok inst =>
      match checkInstanceState actiontype inst with
      | StateCheck.nilDereference => Progress.nilDereference
      | StateCheck.failed err => Progress.returnedError { d with action := none } err
      | StateCheck.passed =>
        Progress.submitted d { InstanceID := id, Type_ := actiontype, Force := none }

/-- The precondition in the words of the specification: the action is refused
when it is stop or reboot and the instance is not running, or when it is start
and the instance is not stopped. -/
def specActionRefused (actiontype status : String) : Bool :=
  ((actiontype == "stop" || actiontype == "reboot") && status != "running") ||
    (actiontype == "start" && status != "stopped")

/-- A stop of instance `i-1` with `force_action = true`. -/
def forcedStop : ResourceData :=
  { id := "i-1", instanceID := "i-1", action := some "stop", forceAction := true }

end InstanceAction

/-! # AppID applications

The composite ID of `ibm/resource_ibm_appid_application.go`. -/

namespace AppIDApplication

/-- The pieces of a text between the occurrences of a separator character. -/
def splitChars (sep : Char) : List Char → List (List Char)
  | [] => [[]]
  | c :: cs =>
    if c = sep then [] :: splitChars sep cs
    else
      match splitChars sep cs with
      | [] => [[c]]
      | part :: parts => (c :: part) :: parts

/-- The library function `strings.Split(s, sep)` for a separator of one
character. -/
def stringsSplit (s : String) (sep : Char) : List String :=
  (splitChars sep s.data).map String.mk

/-- The ID of line 95: `fmt.Sprintf("%s/%s", tenantID, clientID)`. -/
def applicationID (tenantID clientID : String) : String :=
  tenantID ++ "/" ++ clientID

/-- The request `appid.GetApplicationOptions`. -/
structure GetApplicationOptions where
  TenantID : String
  ClientID : String
deriving DecidableEq, Repr

/-- The application `GetApplicationWithContext` hands back; every field is a
`*string`. -/
structure Application where
  Name : Option String
  Secret : Option String
  OAuthServerURL : Option String
  ProfilesURL : Option String
  DiscoveryEndpoint : Option String
  Type_ : Option String
deriving DecidableEq, Repr

/-- What a failing service call hands back: the text of `err`, the status code
of the response (`none` for a nil response) and the text of the response. -/
structure ServiceFailure where
  err : String
  statusCode : Option Nat
  response : String
deriving DecidableEq, Repr

/-- The ID and the attributes of the resource data. -/
structure ResourceData where
  id : String
  tenant_id : String
  client_id : String
  name : String
  type : String
  secret : String
  oauth_server_url : String
  profiles_url : String
  discovery_endpoint : String
deriving DecidableEq, Repr

/-- What a call of the read callback leaves behind: the resource data, the
error returned (`none` is nil) and the request the remote service received
(`none` when it was not called). -/
structure ReadResult where
  d : ResourceData
  err : Option String
  request : Option GetApplicationOptions
deriving DecidableEq, Repr

/-- The error of line 111. -/
def incorrectIDError (id : String) : String :=
  "Incorrect ID " ++ id ++ ": ID should be a combination of tenantID/clientID"

/-- The assignment `if field != nil then d.Set(key, *field)`. -/
def setIfPresent (field : Option String) (current : String) : String :=
  match field with
  | some value => value
  | none => current

/-- The callback `resourceIBMAppIDApplicationRead`, lines 100-160. -/
def resourceIBMAppIDApplicationRead (d : ResourceData) (appIDAPI : Except String Unit)
    (getApplication : GetApplicationOptions → Except ServiceFailure Application) :
    ReadResult :=
  match appIDAPI with
  | Except.error err => { d := d, err := some err, request := none }
  | Except.ok _ =>
    let id := d.id
    let idParts := stringsSplit id '/'
    if h : idParts.length < 2 then
      { d := d, err := some (incorrectIDError d.id), request := none }
    else
      let tenantID := idParts[0]
      let clientID := idParts[1]
      let request : GetApplicationOptions := { TenantID := tenantID, ClientID := clientID }
      match getApplication request with
      | Except.error e =>
        if e.statusCode = some 404 then
          { d := { d with id := "" }, err := none, request := some request }
        else
          { d := d,
            err := some ("Error getting AppID application: " ++ e.err ++ "\n" ++ e.response),
            request := some request }
      | Except.ok app =>
        { d :=
            { d with
              name := setIfPresent app.Name d.name
              secret := setIfPresent app.Secret d.secret
              oauth_server_url := setIfPresent app.OAuthServerURL d.oauth_server_url
              profiles_url := setIfPresent app.ProfilesURL d.profiles_url
              discovery_endpoint := setIfPresent app.DiscoveryEndpoint d.discovery_endpoint
              type := setIfPresent app.Type_ d.type
              tenant_id := tenantID
              client_id := clientID },
          err := none, request := some request }

/-- Resource data with the given ID and empty attributes. -/
def blank (id : String) : ResourceData :=
  { id := id, tenant_id := "", client_id := "", name := "", type := "", secret := "",
    oauth_server_url := "", profiles_url := "", discovery_endpoint := "" }

/-- A remote side that knows no application. -/
def notFound : GetApplicationOptions → Except ServiceFailure Application :=
  fun _ => Except.error { err := "Not Found", statusCode := some 404, response := "404" }

end AppIDApplication

/-! # AppID roles

The ID handling of `ibm/resource_ibm_appid_role.go`. -/

namespace AppIDRole

/-- How far a callback gets with the resource ID: it returns an error, or an
index into `idParts` is out of range, or it goes on to the remote call with the
two parts of the ID. -/
inductive Progress where
  | returnedError (err : String)
  | indexOutOfRange
  | passed (tenantID roleID : String)
deriving DecidableEq, Repr

/-- The error of lines 111, 156 and 188. -/
def incorrectIDError (id : String) : String :=
  "Incorrect ID " ++ id ++ ": ID should be a combination of tenantID/roleID"

/-- Lines 100-115 of `resourceIBMAppIDRoleRead`: the length test comes before
the two index expressions. -/
def resourceIBMAppIDRoleRead (appIDAPI : Except String Unit) (id : String) : Progress :=
  match appIDAPI with
  | Except.error err => Progress.returnedError err
  | Except.ok _ =>
    let idParts := AppIDApplication.stringsSplit id '/'
    if idParts.length < 2 then Progress.returnedError (incorrectIDError id)
    else
      match idParts[0]? with
      | none => Progress.indexOutOfRange
      | some tenantID =>
        match idParts[1]? with
        | none => Progress.indexOutOfRange
        | some roleID => Progress.passed tenantID roleID

/-- Lines 142-157 of `resourceIBMAppIDRoleDelete`: the two index expressions
of lines 152 and 153 come before the length test of line 155. -/
def resourceIBMAppIDRoleDelete (appIDAPI : Except String Unit) (id : String) : Progress :=
  match appIDAPI with
  | Except.error err => Progress.returnedError err
  | Except.ok _ =>
    let idParts := AppIDApplication.stringsSplit id '/'
    match idParts[0]? with
    | none => Progress.indexOutOfRange
    | some tenantID =>
      match idParts[1]? with
      | none => Progress.indexOutOfRange
      | some roleID =>
        if idParts.length < 2 then Progress.returnedError (incorrectIDError id)
        else Progress.passed tenantID roleID

/-- Lines 172-189 of `resourceIBMAppIDRoleUpdate`: the two index expressions
of lines 183 and 184 come before the length test of line 187. -/
def resourceIBMAppIDRoleUpdate (appIDAPI : Except String Unit) (id : String) : Progress :=
  match appIDAPI with
  | Except.error err => Progress.returnedError err
  | Except.ok _ =>
    let idParts := AppIDApplication.stringsSplit id '/'
    match idParts[0]? with
    | none => Progress.indexOutOfRange
    | some tenantID =>
      match idParts[1]? with
      | none => Progress.indexOutOfRange
      | some roleID =>
        if idParts.length < 2 then Progress.returnedError (incorrectIDError id)
        else Progress.passed tenantID roleID

end AppIDRole

/-! # Cloud Directory templates

The request of `ibm/resource_ibm_appid_cloud_directory_template.go`, lines
126-153, and the library encoding `base64.StdEncoding` it uses. -/

namespace AppIDCloudDirectoryTemplate

/-- The alphabet `encodeStd` of `encoding/base64`. -/
def encodeStd : String :=
  "ABCDEFGHIJKLMNOPQRSTUVWXYZabcdefghijklmnopqrstuvwxyz0123456789+/"

/-- The character of a group of six bits. -/
def encodeSextet (n : Nat) : Char := encodeStd.data.getD n 'A'

/-- The group of six bits of a character of the alphabet. -/
def decodeSextet (c : Char) : Option Nat :=
  if encodeStd.data.indexOf c < 64 then some (encodeStd.data.indexOf c) else none

/-- Standard padded Base64 of a sequence of bytes: three bytes give four
characters, a rest of two or one byte is padded with `=`. -/
def encodeBytes : List UInt8 → List Char
  | a :: b :: c :: rest =>
    encodeSextet (a.toNat / 4) :: encodeSextet (a.toNat % 4 * 16 + b.toNat / 16) ::
      encodeSextet (b.toNat % 16 * 4 + c.toNat / 64) :: encodeSextet (c.toNat % 64) ::
      encodeBytes rest
  | [a, b] =>
    [encodeSextet (a.toNat / 4), encodeSextet (a.toNat % 4 * 16 + b.toNat / 16),
      encodeSextet (b.toNat % 16 * 4), '=']
  | [a] => [encodeSextet (a.toNat / 4), encodeSextet (a.toNat % 4 * 16), '=', '=']
  | [] => []

/-- Standard padded Base64 read back, for a text without line breaks; `none`
is a corrupt input. -/
def decodeChars : List Char → Option (List UInt8)
  | [] => some []
  | c0 :: c1 :: c2 :: c3 :: rest =>
    match decodeSextet c0, decodeSextet c1 with
    | some s0, some s1 =>
      if c3 = '=' then
        if rest ≠ [] then none
        else if c2 = '=' then
          if s1 % 16 = 0 then some [UInt8.ofNat (s0 * 4 + s1 / 16)] else none
        else
          match decodeSextet c2 with
          | some s2 =>
            if s2 % 4 = 0 then
              some [UInt8.ofNat (s0 * 4 + s1 / 16), UInt8.ofNat (s1 % 16 * 16 + s2 / 4)]
            else none
          | none => none
      else
        match decodeSextet c2, decodeSextet c3, decodeChars rest with
        | some s2, some s3, some bytes =>
          some (UInt8.ofNat (s0 * 4 + s1 / 16) :: UInt8.ofNat (s1 % 16 * 16 + s2 / 4) ::
            UInt8.ofNat (s2 % 4 * 64 + s3) :: bytes)
        | _, _, _ => none
    | _, _ => none
  | _ => none

/-- The library function `b64.StdEncoding.EncodeToString`. -/
def EncodeToString (src : List UInt8) : String := String.mk (encodeBytes src)

/-- The library function `b64.StdEncoding.DecodeString`. -/
def DecodeString (s : String) : Option (List UInt8) := decodeChars s.data

/-- The conversion `[]byte(s)`: the UTF-8 bytes of a string. -/
def bytesOf (s : String) : List UInt8 := s.toUTF8.data.toList

/-- The attributes of the resource data the create callback reads. -/
structure ResourceData where
  tenant_id : String
  template_name : String
  language : String
  subject : String
  html_body : String
  plain_text_body : String
deriving DecidableEq, Repr

/-- The request `appid.UpdateTemplateOptions`; the three body fields are
`*string` and start as nil. -/
structure UpdateTemplateOptions where
  TenantID : String
  TemplateName : String
  Language : String
  Subject : String
  HTMLBody : Option String
  Base64EncodedHTMLBody : Option String
  PlainTextBody : Option String
deriving DecidableEq, Repr

/-- How far the callback gets: it returns an error before the remote call, or
it reaches the call of `UpdateTemplateWithContext` with the given request. -/
inductive Progress where
  | returnedError (err : String)
  | requested (input : UpdateTemplateOptions)
deriving DecidableEq, Repr

/-- `d.GetOk` on a string attribute: the value and whether it is non-zero. -/
def getOkString (value : String) : Option String :=
  if value = "" then none else some value

/-- Lines 126-153 of `resourceIBMAppIDCloudDirectoryTemplateCreate`: from the
start of the callback to the call of `UpdateTemplateWithContext`. -/
def resourceIBMAppIDCloudDirectoryTemplateCreate (d : ResourceData)
    (appIDAPI : Except String Unit) : Progress :=
  match appIDAPI with
  | Except.error err => Progress.returnedError err
  | Except.ok _ =>
    let input : UpdateTemplateOptions :=
      { TenantID := d.tenant_id, TemplateName := d.template_name, Language := d.language,
        Subject := d.subject, HTMLBody := none, Base64EncodedHTMLBody := none,
        PlainTextBody := none }
    let input :=
      match getOkString d.html_body with
      | some htmlBody =>
        { input with Base64EncodedHTMLBody := some (EncodeToString (bytesOf htmlBody)) }
      | none => input
    let input :=
      match getOkString d.plain_text_body with
      | some textBody => { input with PlainTextBody := some textBody }
      | none => input
    Progress.requested input

/-- The callback `resourceIBMAppIDCloudDirectoryTemplateUpdate`, lines 190-193:
it reuses the create callback. -/
def resourceIBMAppIDCloudDirectoryTemplateUpdate (d : ResourceData)
    (m : Except String Unit) : Progress :=
  resourceIBMAppIDCloudDirectoryTemplateCreate d m

/-- A welcome mail in English. -/
def welcomeMail : ResourceData :=
  { tenant_id := "tenant-1", template_name := "WELCOME", language := "en",
    subject := "Welcome", html_body := "<b>Hi</b>", plain_text_body := "" }

end AppIDCloudDirectoryTemplate

/-! # Locations of a private DNS custom resolver

The create and the delete callback of
`ibm/resource_ibm_private_dns_custom_resolver_location.go` with the remote
calls they make, in their order. -/

namespace PrivateDNSLocation

/-- The ID and the attributes of the resource data; `enabled` and `cr_enabled`
are read with `d.GetOkExists`, `none` is an attribute that does not exist. -/
structure ResourceData where
  id : String
  instanceID : String
  resolverID : String
  subnetCRN : String
  enabled : Option Bool
  crEnabled : Option Bool
deriving DecidableEq, Repr

/-- The remote interactions of the callbacks, with the fields of their
options.  The helper `waitForPDNSCustomResolverHealthy` is declared outside
the sources; it stands here as one interaction of which only the error is used. -/
inductive Call where
  | updateCustomResolver (instanceID resolverID : String) (enabled : Bool)
  | addCustomResolverLocation (instanceID resolverID : String) (subnetCrn : Option String)
      (enabled : Option Bool)
  | waitForPDNSCustomResolverHealthy
  | updateCustomResolverLocation (instanceID resolverID locationID : String)
      (enabled : Bool)
  | getCustomResolver (instanceID resolverID : String)
  | deleteCustomResolverLocation (instanceID resolverID locationID : String)
deriving DecidableEq, Repr

/-- A result that is not nil: the `ID` (a `*string`) and the number of
`Locations`. -/
structure Result where
  ID : Option String
  Locations : Nat
deriving DecidableEq, Repr

/-- What a remote call hands back: the result (`none` is nil), the status code
of the response (`none` is a nil response), the text of the response and the
error (`none` is nil). -/
structure Reply where
  result : Option Result
  statusCode : Option Nat
  response : String
  err : Option String
deriving DecidableEq, Repr

/-- How a callback ends: it returns with the resource data and an error
(`none` is nil), or it dereferences a nil pointer. -/
inductive Outcome where
  | returned (d : ResourceData) (err : Option String)
  | nilDereference
deriving DecidableEq, Repr

/-- A run of a callback: how it ends and the remote calls it made, in their
order. -/
structure Run where
  outcome : Outcome
  calls : List Call
deriving DecidableEq, Repr

/-- What `convertTfToCisThreeVar` hands back; the helper is declared outside
the sources and is taken as a parameter. -/
structure Converted where
  locationID : String
  resolverID : String
  instanceID : String
  err : Option String
deriving DecidableEq, Repr

/-- The text `%s` prints for an error that may be nil. -/
def errorString (err : Option String) : String :=
  match err with
  | some e => e
  | none => "%!s(<nil>)"

/-- `d.GetOk` on a string attribute: the value and whether it is non-zero. -/
def getOkString (value : String) : Option String :=
  if value = "" then none else some value

/-- The test `err != nil || result == nil` on what a call handed back. -/
def failed (r : Reply) : Bool :=
  r.err.isSome || r.result.isNone

/-- Lines 112-133 of `resourceIBMPrivateDNSLocationCreate`: the add call and
what follows it, after the calls made so far.  The `n`-th remote call of the
run is answered with `reply n`. -/
def createFromAdd (d : ResourceData) (convertCisToTfThreeVar : String → String → String → String)
    (reply : Nat → Reply) (calls : List Call) : Run :=
  let instanceID := d.instanceID
  let resolverID := d.resolverID
  let enable_loc := d.enabled.getD false
  let r := reply calls.length
  let calls := calls ++
    [Call.addCustomResolverLocation instanceID resolverID (getOkString d.subnetCRN) d.enabled]
  if failed r then
    { outcome := Outcome.returned d
        (some ("Error creating the custom resolver location " ++ errorString r.err ++ ":" ++
          r.response)),
      calls := calls }
  else
    match r.result.bind (fun result => result.ID) with
    | none => { outcome := Outcome.nilDereference, calls := calls }
    | some locationID =>
      let d := { d with id := convertCisToTfThreeVar locationID resolverID instanceID }
      match d.crEnabled with
      | none => { outcome := Outcome.returned d none, calls := calls }
      | some cr_enable =>
        if cr_enable && enable_loc then
          let w := reply calls.length
          let calls := calls ++ [Call.waitForPDNSCustomResolverHealthy]
          match w.err with
          | some err => { outcome := Outcome.returned d (some err), calls := calls }
          | none =>
            let rCr := reply calls.length
            let calls := calls ++ [Call.updateCustomResolver instanceID resolverID cr_enable]
            if failed rCr then
              { outcome := Outcome.returned d
                  (some ("Error updating the custom resolver " ++ errorString rCr.err ++ ":" ++
                    rCr.response)),
                calls := calls }
            else { outcome := Outcome.returned d none, calls := calls }
        else { outcome := Outcome.returned d none, calls := calls }

/-- The callback `resourceIBMPrivateDNSLocationCreate`, lines 82-134.  The
`n`-th remote call of the run is answered with `reply n`; the read callback it
ends with returns nil. -/
def resourceIBMPrivateDNSLocationCreate (d : ResourceData) (session : Except String Unit)
    (convertCisToTfThreeVar : String → String → String → String) (reply : Nat → Reply) :
    Run :=
  match session with
  | Except.error err => { outcome := Outcome.returned d (some err), calls := [] }
  | Except.ok _ =>
    match d.crEnabled with
    | some _ =>
      let rCr := reply 0
      let calls := [Call.updateCustomResolver d.instanceID d.resolverID false]
      if failed rCr then
        { outcome := Outcome.returned d
            (some ("Error updating the custom resolver with cr_enable false " ++
              errorString rCr.err ++ ":" ++ rCr.response)),
          calls := calls }
      else createFromAdd d convertCisToTfThreeVar reply calls
    | none => createFromAdd d convertCisToTfThreeVar reply []

/-- Lines 196-221 of `resourceIBMPrivateDNSLocationDelete`: the calls after the
first `if`, after the calls made so far. -/
def deleteFromDisableLocation (d : ResourceData) (c : Converted) (reply : Nat → Reply)
    (calls : List Call) : Run :=
  let r := reply calls.length
  let calls := calls ++
    [Call.updateCustomResolverLocation c.instanceID c.resolverID c.locationID false]
  if failed r then
    { outcome := Outcome.returned d
        (some ("Error Disbale and updating the custom resolver location " ++
          errorString r.err ++ ":" ++ r.response)),
      calls := calls }
  else
    let g := reply calls.length
    let calls := calls ++ [Call.getCustomResolver c.instanceID c.resolverID]
    match g.result with
    | none => { outcome := Outcome.nilDereference, calls := calls }
    | some result =>
      if result.Locations > 1 then
        let del := reply calls.length
        let calls := calls ++
          [Call.deleteCustomResolverLocation c.instanceID c.resolverID c.locationID]
        match del.err with
        | some errDel =>
          if del.statusCode = some 404 then { outcome := Outcome.returned d none, calls := calls }
          else
            { outcome := Outcome.returned d
                (some ("Error Deleting the custom resolver location " ++ errDel ++ ":" ++
                  del.response)),
              calls := calls }
        | none => { outcome := Outcome.returned { d with id := "" } none, calls := calls }
      else { outcome := Outcome.returned { d with id := "" } none, calls := calls }

/-- The callback `resourceIBMPrivateDNSLocationDelete`, lines 168-221.  The
test of line 183 reads `err`, the error of `convertTfToCisThreeVar`, and not
`errEnabled`, the error of the call. -/
def resourceIBMPrivateDNSLocationDelete (d : ResourceData) (session : Except String Unit)
    (convertTfToCisThreeVar : String → Converted) (reply : Nat → Reply) : Run :=
  match session with
  | Except.error err => { outcome := Outcome.returned d (some err), calls := [] }
  | Except.ok _ =>
    let c := convertTfToCisThreeVar d.id
    match d.crEnabled with
    | some true =>
      let r := reply 0
      let calls := [Call.updateCustomResolver c.instanceID c.resolverID false]
      if c.err.isSome || r.result.isNone then
        { outcome := Outcome.returned d
            (some ("Error Disable and Update the custom resolver " ++ errorString r.err ++
              ":" ++ r.response)),
          calls := calls }
      else deleteFromDisableLocation d c reply calls
    | some false =>
      let r := reply 0
      let calls :=
        [Call.updateCustomResolverLocation c.instanceID c.resolverID c.locationID false]
      if failed r then
        { outcome := Outcome.returned d
            (some ("Error Disbale and updating the custom resolver location " ++
              errorString r.err ++ ":" ++ r.response)),
          calls := calls }
      else deleteFromDisableLocation d c reply calls
    | none => deleteFromDisableLocation d c reply []

/-- The call that disables the custom resolver. -/
def disableCall (d : ResourceData) : Call :=
  Call.updateCustomResolver d.instanceID d.resolverID false

/-- The call that adds the location. -/
def addCall (d : ResourceData) : Call :=
  Call.addCustomResolverLocation d.instanceID d.resolverID (getOkString d.subnetCRN) d.enabled

/-- The call that enables the custom resolver. -/
def enableCall (d : ResourceData) : Call :=
  Call.updateCustomResolver d.instanceID d.resolverID true

/-- A location `loc-1` of the resolver `res-1` of the instance `inst-1`, with
the location and the custom resolver enabled. -/
def enabledLocation : ResourceData :=
  { id := "loc-1:res-1:inst-1", instanceID := "inst-1", resolverID := "res-1",
    subnetCRN := "crn:subnet", enabled := some true, crEnabled := some true }

/-- The parts of the ID `loc-1:res-1:inst-1`, without error. -/
def convertedLocation : String → Converted :=
  fun _ => { locationID := "loc-1", resolverID := "res-1", instanceID := "inst-1", err := none }

/-- The ID made of its three parts. -/
def joinThree : String → String → String → String :=
  fun a b c => a ++ ":" ++ b ++ ":" ++ c

/-- A call that went well, with a result holding the ID `loc-1` and a single
location. -/
def fine : Reply :=
  { result := some { ID := some "loc-1", Locations := 1 }, statusCode := some 200,
    response := "200", err := none }

/-- A call that hands back an error together with a result that is not nil. -/
def errorWithResult : Reply :=
  { result := some { ID := none, Locations := 0 }, statusCode := some 500,
    response := "500", err := some "internal error" }

/-- A call that hands back an error and no result. -/
def errorWithoutResult : Reply :=
  { result := none, statusCode := some 500, response := "500", err := some "internal error" }

/-- A service whose first call hands back an error with a result and whose
later calls go well. -/
def firstCallErrorWithResult : Nat → Reply :=
  fun n => if n = 0 then errorWithResult else fine

/-- A service whose third call, the health wait, fails with `not healthy` and
whose other calls go well. -/
def healthWaitFails : Nat → Reply :=
  fun n =>
    if n = 2 then
      { result := none, statusCode := none, response := "", err := some "not healthy" }
    else fine

/-- A service whose second call fails and whose other calls go well. -/
def secondCallFails : Nat → Reply :=
  fun n => if n = 1 then errorWithoutResult else fine

end PrivateDNSLocation

namespace SccSiProviders

/-! ## Basic facts -/

theorem wrapInt64_of_isInt64 {x : Int} (h : isInt64 x) : wrapInt64 x = x := by
  unfold isInt64 at h
  unfold wrapInt64
  omega

theorem allProviders_nil {α : Type} :
    allProviders ([] : List (APIListProvidersResponse α)) = [] := rfl

theorem allProviders_cons {α : Type} (p : APIListProvidersResponse α)
    (ps : List (APIListProvidersResponse α)) :
    allProviders (p :: ps) = p.Providers ++ allProviders ps := rfl

theorem allProviders_append {α : Type} (ps qs : List (APIListProvidersResponse α)) :
    allProviders (ps ++ qs) = allProviders ps ++ allProviders qs := by
  simp [allProviders]

theorem serves_nil {α : Type} (script : Nat → FetchResult α) (i : Nat) :
    serves script i [] := by
  intro m p h
  simp at h

theorem serves_cons {α : Type} {script : Nat → FetchResult α} {i : Nat}
    {p : APIListProvidersResponse α} {ps : List (APIListProvidersResponse α)} :
    serves script i (p :: ps) ↔ script i = Except.ok p ∧ serves script (i + 1) ps := by
  constructor
  · intro h
    refine ⟨by simpa using h 0 p (by simp), ?_⟩
    intro m q hq
    have := h (m + 1) q (by simpa using hq)
    rwa [show i + (m + 1) = i + 1 + m by omega] at this
  · rintro ⟨h0, hs⟩ m q hq
    cases m with
    | zero =>
      simp at hq
      subst hq
      simpa using h0
    | succ m =>
      have := hs m q (by simpa using hq)
      rwa [show i + 1 + m = i + (m + 1) by omega] at this

theorem serves_append {α : Type} {script : Nat → FetchResult α} {i : Nat}
    {ps qs : List (APIListProvidersResponse α)} :
    serves script i (ps ++ qs) ↔ serves script i ps ∧ serves script (i + ps.length) qs := by
  induction ps generalizing i with
  | nil => simp [serves_nil]
  | cons p ps ih =>
    rw [List.cons_append, serves_cons, serves_cons, ih, List.length_cons,
      show i + 1 + ps.length = i + (ps.length + 1) by omega, and_assoc]

/-- The local variable `totalCount` is written before it is read: its value
on entry to the loop does not matter. -/
theorem collectLoop_totalCount_irrelevant {σ α : Type} (fetch : ListProviders σ α)
    (options : ListProvidersOptions) (fuel : Nat) (s : σ) (acc : List α)
    (tc tc1 : Option Int) :
    collectLoop fetch options fuel s acc tc = collectLoop fetch options fuel s acc tc1 := by
  cases fuel <;> rfl

theorem collectLoop_scripted_error {α : Type} {script : Nat → FetchResult α}
    {options : ListProvidersOptions} {i : Nat} {e : FetchFailure}
    (h : script i = Except.error e) (fuel : Nat) (acc : List α) (tc : Option Int) :
    collectLoop (scripted script) options (fuel + 1) i acc tc =
      some (Outcome.returned none (some 0) (some (errorText e)), i + 1) := by
  simp [collectLoop, scripted, h]

theorem collectLoop_scripted_stop {α : Type} {script : Nat → FetchResult α}
    {options : ListProvidersOptions} {i : Nat} {p : APIListProvidersResponse α}
    (h : script i = Except.ok p) (fuel : Nat) (acc : List α) (tc : Option Int)
    (hd : loopDecision options ((acc ++ p.Providers).length : Int) p.TotalCount
      = Decision.stop) :
    collectLoop (scripted script) options (fuel + 1) i acc tc =
      some (Outcome.returned (some (acc ++ p.Providers)) p.TotalCount none, i + 1) := by
  simp only [collectLoop, scripted, h, hd]

theorem collectLoop_scripted_again {α : Type} {script : Nat → FetchResult α}
    {options : ListProvidersOptions} {i : Nat} {p : APIListProvidersResponse α}
    (h : script i = Except.ok p) (fuel : Nat) (acc : List α) (tc : Option Int)
    (hd : loopDecision options ((acc ++ p.Providers).length : Int) p.TotalCount
      = Decision.again) :
    collectLoop (scripted script) options (fuel + 1) i acc tc =
      collectLoop (scripted script) options fuel (i + 1) (acc ++ p.Providers) p.TotalCount := by
  simp only [collectLoop, scripted, h, hd]

theorem collectLoop_scripted_nilDereference {α : Type} {script : Nat → FetchResult α}
    {options : ListProvidersOptions} {i : Nat} {p : APIListProvidersResponse α}
    (h : script i = Except.ok p) (fuel : Nat) (acc : List α) (tc : Option Int)
    (hd : loopDecision options ((acc ++ p.Providers).length : Int) p.TotalCount
      = Decision.nilDereference) :
    collectLoop (scripted script) options (fuel + 1) i acc tc =
      some (Outcome.nilDereference, i + 1) := by
  simp only [collectLoop, scripted, h, hd]

/-! ## The loop against a scripted source -/

/-- A successful return comes from a non-empty run of pages: every call was
answered with a page, the list returned is the accumulator followed by the items
of those pages, the total count returned is the one of the last page, and
the tests matched on that last page. -/
theorem collectLoop_returned_ok {α : Type} {script : Nat → FetchResult α}
    {options : ListProvidersOptions} :
    ∀ (fuel i : Nat) (acc : List α) (tc : Option Int) (l : Option (List α))
      (t : Option Int) (j : Nat),
      collectLoop (scripted script) options fuel i acc tc
        = some (Outcome.returned l t none, j) →
      ∃ pages last, j = i + pages.length + 1 ∧ serves script i (pages ++ [last]) ∧
        l = some (acc ++ allProviders (pages ++ [last])) ∧ t = last.TotalCount ∧
        loopDecision options ((acc ++ allProviders (pages ++ [last])).length : Int)
          last.TotalCount = Decision.stop := by
  intro fuel
  induction fuel with
  | zero =>
    intro i acc tc l t j h
    simp [collectLoop] at h
  | succ fuel ih =>
    intro i acc tc l t j h
    cases hs : script i with
    | error e =>
      rw [collectLoop_scripted_error hs] at h
      simp at h
    | ok p =>
      cases hd : loopDecision options ((acc ++ p.Providers).length : Int) p.TotalCount with
      | stop =>
        rw [collectLoop_scripted_stop hs fuel acc tc hd] at h
        simp only [Option.some.injEq, Prod.mk.injEq, Outcome.returned.injEq, true_and] at h
        obtain ⟨⟨hl, ht, _⟩, hj⟩ := h
        refine ⟨[], p, by simp [hj], ?_, ?_, ht.symm, ?_⟩
        · exact serves_cons.mpr ⟨hs, serves_nil _ _⟩
        · simp [allProviders_cons, allProviders_nil, hl]
        · simpa [allProviders_cons, allProviders_nil] using hd
      | nilDereference =>
        rw [collectLoop_scripted_nilDereference hs fuel acc tc hd] at h
        simp at h
      | again =>
        rw [collectLoop_scripted_again hs fuel acc tc hd] at h
        obtain ⟨pages, last, hj, hserv, hl, ht, hstop⟩ := ih _ _ _ _ _ _ h
        refine ⟨p :: pages, last, by simp [hj]; omega, ?_, ?_, ht, ?_⟩
        · exact serves_cons.mpr ⟨hs, hserv⟩
        · simp [allProviders_cons, hl]
        · simpa [allProviders_cons] using hstop

/-- While the tests keep answering `again`, the loop walks through the pages:
after them it stands at the next call with all their items accumulated. -/
theorem collectLoop_again_run {α : Type} {script : Nat → FetchResult α}
    {options : ListProvidersOptions} :
    ∀ (pages : List (APIListProvidersResponse α)) (i : Nat) (acc : List α)
      (tc : Option Int) (fuel : Nat),
      serves script i pages →
      (∀ m p, pages[m]? = some p →
        loopDecision options ((acc ++ allProviders (pages.take (m + 1))).length : Int)
          p.TotalCount = Decision.again) →
      collectLoop (scripted script) options (pages.length + fuel) i acc tc =
        collectLoop (scripted script) options fuel (i + pages.length)
          (acc ++ allProviders pages) tc := by
  intro pages
  induction pages with
  | nil =>
    intro i acc tc fuel _ _
    simp [allProviders_nil]
  | cons p ps ih =>
    intro i acc tc fuel hserv hagain
    obtain ⟨h0, hrest⟩ := serves_cons.mp hserv
    have hd : loopDecision options ((acc ++ p.Providers).length : Int) p.TotalCount
        = Decision.again := by
      simpa [allProviders_cons, allProviders_nil] using hagain 0 p (by simp)
    rw [List.length_cons, show ps.length + 1 + fuel = (ps.length + fuel) + 1 by omega,
      collectLoop_scripted_again h0 _ acc tc hd,
      collectLoop_totalCount_irrelevant _ _ _ _ _ p.TotalCount tc,
      ih (i + 1) (acc ++ p.Providers) tc fuel hrest ?_]
    · rw [allProviders_cons, List.append_assoc, show i + 1 + ps.length = i + (ps.length + 1) by omega]
    · intro m q hq
      have := hagain (m + 1) q (by simpa using hq)
      simpa [allProviders_cons, List.append_assoc] using this

/-- Pages that all report the total `total` and whose items bring the
accumulator to exactly `n` items, where the tests answer `stop` at `n` and
`again` below `n`: the loop returns the accumulator followed by all their items. -/
theorem collectLoop_reaches {α : Type} {script : Nat → FetchResult α}
    {options : ListProvidersOptions} (total : Int) (n : Nat)
    (hbelow : ∀ m : Nat, m < n → loopDecision options (m : Int) (some total) = Decision.again)
    (hat : loopDecision options (n : Int) (some total) = Decision.stop) :
    ∀ (chunks : List (List α)) (i : Nat) (acc : List α) (tc : Option Int),
      chunks ≠ [] →
      serves script i (chunks.map (fun c => page c total)) →
      acc.length + chunks.flatten.length = n →
      ∃ k, 1 ≤ k ∧ k ≤ chunks.length ∧ ∀ fuel, k ≤ fuel →
        collectLoop (scripted script) options fuel i acc tc =
          some (Outcome.returned (some (acc ++ chunks.flatten)) (some total) none, i + k) := by
  intro chunks
  induction chunks with
  | nil => intro i acc tc hne; exact absurd rfl hne
  | cons c cs ih =>
    intro i acc tc _ hserv hlen
    rw [List.map_cons] at hserv
    obtain ⟨h0, hrest⟩ := serves_cons.mp hserv
    simp only [List.flatten_cons, List.length_append] at hlen
    by_cases hn : (acc ++ c).length = n
    · have hcs : cs.flatten = [] := by
        apply List.eq_nil_of_length_eq_zero
        simp only [List.length_append] at hn
        omega
      refine ⟨1, le_refl 1, by simp, ?_⟩
      intro fuel hfuel
      obtain ⟨f, rfl⟩ : ∃ f, fuel = f + 1 := ⟨fuel - 1, by omega⟩
      have hd : loopDecision options ((acc ++ (page c total).Providers).length : Int)
          (page c total).TotalCount = Decision.stop := by
        simpa [page, hn] using hat
      rw [collectLoop_scripted_stop h0 f acc tc hd]
      simp [page, hcs]
    · have hlt : (acc ++ c).length < n := by
        simp only [List.length_append] at hn ⊢
        omega
      have hne : cs ≠ [] := by
        rintro rfl
        simp at hlen
        simp at hn
        omega
      have hd : loopDecision options ((acc ++ (page c total).Providers).length : Int)
          (page c total).TotalCount = Decision.again := by
        simpa [page] using hbelow _ hlt
      obtain ⟨k, hk1, hk2, hk⟩ := ih (i + 1) (acc ++ c) (some total) hne hrest
        (by simp only [List.length_append]; omega)
      refine ⟨k + 1, by omega, by simp; omega, ?_⟩
      intro fuel hfuel
      obtain ⟨f, rfl⟩ : ∃ f, fuel = f + 1 := ⟨fuel - 1, by omega⟩
      rw [collectLoop_scripted_again h0 f acc tc hd]
      simp only [page]
      rw [hk f (by omega)]
      simp only [List.flatten_cons, List.append_assoc, Option.some.injEq, Prod.mk.injEq,
        true_and]
      omega

/-- The loop hands the same options to every call, so against any source it
runs as it does against the script of that source's answers. -/
theorem collectLoop_eq_scripted {σ α : Type} (fetch : ListProviders σ α)
    (options : ListProvidersOptions) (s : σ) :
    ∀ (fuel i : Nat) (acc : List α) (tc : Option Int),
      collectLoop fetch options fuel (stateAfter fetch options s i) acc tc =
        (collectLoop (scripted (scriptOf fetch options s)) options fuel i acc tc).map
          (fun r => (r.1, stateAfter fetch options s r.2)) := by
  intro fuel
  induction fuel with
  | zero => intro i acc tc; rfl
  | succ fuel ih =>
    intro i acc tc
    simp only [collectLoop, scripted, scriptOf]
    rcases hf : fetch options (stateAfter fetch options s i) with ⟨r, s1⟩
    have hs1 : stateAfter fetch options s (i + 1) = s1 := by
      simp [stateAfter, hf]
    cases r with
    | error e => simp [hs1]
    | ok resp =>
      simp only
      cases loopDecision options ((acc ++ resp.Providers).length : Int) resp.TotalCount with
      | stop => simp [hs1]
      | nilDereference => simp [hs1]
      | again =>
        simp only
        rw [← hs1, ih]

theorem serves_pagesThen {α : Type} (pages : List (APIListProvidersResponse α))
    (rest : Nat → FetchResult α) : serves (pagesThen pages rest) 0 pages := by
  intro m p h
  simp [pagesThen, h]

theorem pagesThen_length {α : Type} (pages : List (APIListProvidersResponse α))
    (rest : Nat → FetchResult α) : pagesThen pages rest pages.length = rest 0 := by
  simp [pagesThen]

/-- With neither skip nor limit only the last test can match. -/
theorem loopDecision_unbounded (n total : Int) :
    loopDecision { Skip := none, Limit := none } n (some total)
      = if n = total then Decision.stop else Decision.again := by
  by_cases h : n = total <;> simp [loopDecision, limitRule, skipRule, noLimitRule, h]

/-- With a limit and no skip only the first test can match. -/
theorem loopDecision_limit_only (n limit : Int) (tc : Option Int) :
    loopDecision { Skip := none, Limit := some limit } n tc
      = if n = limit then Decision.stop else Decision.again := by
  by_cases h : n = limit <;> simp [loopDecision, limitRule, skipRule, noLimitRule, h]

/-! ## P1: completeness without bounds -/

/-- C1 (P1, completeness without bounds): a source emits `N` items split in any
way over one or more successive pages, each page reporting the total count
`N`.  Called with neither skip nor limit, `collectAllProviders` returns, after at
most as many fetches as there are pages, exactly those `N` items in their
order, the total count `N` and no error. -/
theorem collectAllProviders_complete {α : Type} (script : Nat → FetchResult α)
    (chunks : List (List α)) (hne : chunks ≠ [])
    (hserv : serves script 0 (chunks.map (fun c => page c (chunks.flatten.length : Int)))) :
    ∃ k, 1 ≤ k ∧ k ≤ chunks.length ∧ ∀ fuel, k ≤ fuel →
      collectAllProviders (scripted script) { Skip := none, Limit := none } fuel 0 =
        some (Outcome.returned (some chunks.flatten)
          (some (chunks.flatten.length : Int)) none, k) := by
  have hbelow : ∀ m : Nat, m < chunks.flatten.length →
      loopDecision { Skip := none, Limit := none } (m : Int)
        (some (chunks.flatten.length : Int)) = Decision.again := by
    intro m hm
    rw [loopDecision_unbounded, if_neg]
    exact_mod_cast Nat.ne_of_lt hm
  have hat : loopDecision { Skip := none, Limit := none } (chunks.flatten.length : Int)
      (some (chunks.flatten.length : Int)) = Decision.stop := by
    rw [loopDecision_unbounded, if_pos rfl]
  obtain ⟨k, hk1, hk2, hk⟩ := @collectLoop_reaches _ script _ _ _ hbelow hat
    chunks 0 [] (some 0) hne hserv (by simp)
  refine ⟨k, hk1, hk2, ?_⟩
  intro fuel hfuel
  simpa [collectAllProviders] using hk fuel hfuel

/-- Witness of C1: three items in the pages `[7, 8]`, `[]`, `[9]`. -/
theorem collectAllProviders_complete_witness :
    ([[7, 8], [], [9]] : List (List Nat)) ≠ [] ∧
    ∃ k, 1 ≤ k ∧ k ≤ 3 ∧ ∀ fuel, k ≤ fuel →
      collectAllProviders
        (scripted (pagesThen [page [7, 8] 3, page [] 3, page [9] 3] (emptyPages 3)))
        { Skip := none, Limit := none } fuel 0 =
        some (Outcome.returned (some [7, 8, 9]) (some 3) none, k) :=
  ⟨by decide,
   collectAllProviders_complete
     (pagesThen [page [7, 8] 3, page [] 3, page [9] 3] (emptyPages 3))
     [[7, 8], [], [9]] (by decide) (serves_pagesThen _ _)⟩

/-! ## P2: the limit -/

/-- C2, counterexample: the ten items are served in pages of three (3, 3, 3, 1),
each reporting the total 10, and the request has limit 4 and no skip.  The
accumulator holds 3, 6, 9, 10 items after the fetches, never 4, so whatever
the source answers afterwards and however long the loop runs,
`collectAllProviders` does not return successfully, let alone with the first
four items. -/
theorem limit_cap_fails_on_pages_of_three :
    ¬ ∃ (rest : Nat → FetchResult Nat) (fuel : Nat) (l : Option (List Nat))
        (t : Option Int) (j : Nat),
      collectAllProviders (scripted (pagesThen pagesOfThree rest))
        { Skip := none, Limit := some 4 } fuel 0 = some (Outcome.returned l t none, j) := by
  rintro ⟨rest, fuel, l, t, j, h⟩
  obtain ⟨pages, last, -, hserv, -, -, hstop⟩ := collectLoop_returned_ok _ _ _ _ _ _ _ h
  rw [loopDecision_limit_only] at hstop
  have hlen : (([] ++ allProviders (pages ++ [last])).length : Int) = 4 := by
    by_contra hne
    rw [if_neg hne] at hstop
    exact absurd hstop (by decide)
  have hlen : (allProviders (pages ++ [last])).length = 4 := by
    have : ((allProviders (pages ++ [last])).length : Int) = 4 := by simpa using hlen
    exact_mod_cast this
  cases pages with
  | nil =>
    have h0 := hserv 0 last (by simp)
    simp [pagesThen, pagesOfThree] at h0
    subst h0
    simp [allProviders, page] at hlen
  | cons p ps =>
    have h0 := hserv 0 p (by simp)
    simp [pagesThen, pagesOfThree] at h0
    subst h0
    cases ps with
    | nil =>
      have h1 := hserv 1 last (by simp)
      simp [pagesThen, pagesOfThree] at h1
      subst h1
      simp [allProviders, page] at hlen
    | cons q qs =>
      have h1 := hserv 1 q (by simp)
      simp [pagesThen, pagesOfThree] at h1
      subst h1
      simp only [List.cons_append, allProviders_cons, page, List.length_append,
        List.length_cons, List.length_nil] at hlen
      omega

/-- C2, amended (P2, limit cap): the source holds ten items, served in pages
that each report the total 10, and the request has limit 4 and no skip.  If a
page boundary falls on four items, that is, the first `k` pages hold exactly
four items, `collectAllProviders` returns exactly the first four items in fetch
order after at most `k` fetches. -/
theorem collectAllProviders_limit_cap {α : Type} (script : Nat → FetchResult α)
    (items : List α) (chunks : List (List α)) (k : Nat)
    (hitems : chunks.flatten = items) (_hN : items.length = 10)
    (hserv : serves script 0 (chunks.map (fun c => page c 10)))
    (hboundary : (chunks.take k).flatten.length = 4) :
    ∃ j, 1 ≤ j ∧ j ≤ k ∧ ∀ fuel, j ≤ fuel →
      collectAllProviders (scripted script) { Skip := none, Limit := some 4 } fuel 0 =
        some (Outcome.returned (some (items.take 4)) (some 10) none, j) := by
  have hsplit : chunks = chunks.take k ++ chunks.drop k := (List.take_append_drop k chunks).symm
  have hne : chunks.take k ≠ [] := by
    intro h
    rw [h] at hboundary
    simp at hboundary
  have hpre : serves script 0 ((chunks.take k).map (fun c => page c 10)) := by
    rw [hsplit, List.map_append] at hserv
    exact (serves_append.mp hserv).1
  have hbelow : ∀ m : Nat, m < 4 →
      loopDecision { Skip := none, Limit := some 4 } (m : Int) (some 10) = Decision.again := by
    intro m hm
    rw [loopDecision_limit_only, if_neg]
    omega
  have hat : loopDecision { Skip := none, Limit := some 4 } ((4 : Nat) : Int) (some 10)
      = Decision.stop := by decide
  obtain ⟨j, hj1, hj2, hj⟩ := @collectLoop_reaches _ script _ 10 4 hbelow hat
    (chunks.take k) 0 [] (some 0) hne hpre (by simpa using hboundary)
  have htake : items.take 4 = (chunks.take k).flatten := by
    have hflat : chunks.flatten = (chunks.take k).flatten ++ (chunks.drop k).flatten := by
      rw [← List.flatten_append, List.take_append_drop]
    rw [← hitems, hflat]
    exact List.take_left' hboundary
  refine ⟨j, hj1, le_trans hj2 (by simp), ?_⟩
  intro fuel hfuel
  rw [htake]
  simpa [collectAllProviders] using hj fuel hfuel

/-- Witness of C2 amended: ten items in pages of two; the boundary after the
second page falls on four items. -/
theorem collectAllProviders_limit_cap_witness :
    ([[0, 1], [2, 3], [4, 5], [6, 7], [8, 9]] : List (List Nat)).flatten
        = [0, 1, 2, 3, 4, 5, 6, 7, 8, 9] ∧
    ∃ j, 1 ≤ j ∧ j ≤ 2 ∧ ∀ fuel, j ≤ fuel →
      collectAllProviders
        (scripted (pagesThen
          [page [0, 1] 10, page [2, 3] 10, page [4, 5] 10, page [6, 7] 10, page [8, 9] 10]
          (emptyPages 10)))
        { Skip := none, Limit := some 4 } fuel 0 =
        some (Outcome.returned (some [0, 1, 2, 3]) (some 10) none, j) :=
  ⟨by decide,
   collectAllProviders_limit_cap
     (pagesThen
       [page [0, 1] 10, page [2, 3] 10, page [4, 5] 10, page [6, 7] 10, page [8, 9] 10]
       (emptyPages 10))
     [0, 1, 2, 3, 4, 5, 6, 7, 8, 9] [[0, 1], [2, 3], [4, 5], [6, 7], [8, 9]] 2
     (by decide) (by decide) (serves_pagesThen _ _) (by decide)⟩

/-! ## P3: the skip offset -/

/-- C3 (P3, skip offset): the source reports the total count 10 on every page
and emits the four items after offset 6, split in any way over successive
pages.  Called with skip 6 and no limit, `collectAllProviders` returns exactly
those four items in their order, the total count 10 and no error. -/
theorem collectAllProviders_skip_offset {α : Type} (script : Nat → FetchResult α)
    (chunks : List (List α)) (hlen : chunks.flatten.length = 4)
    (hserv : serves script 0 (chunks.map (fun c => page c 10))) :
    ∃ k, 1 ≤ k ∧ k ≤ chunks.length ∧ ∀ fuel, k ≤ fuel →
      collectAllProviders (scripted script) { Skip := some 6, Limit := none } fuel 0 =
        some (Outcome.returned (some chunks.flatten) (some 10) none, k) := by
  have hne : chunks ≠ [] := by
    rintro rfl
    simp at hlen
  have hbelow : ∀ m : Nat, m < 4 →
      loopDecision { Skip := some 6, Limit := none } (m : Int) (some 10) = Decision.again := by
    intro m hm
    interval_cases m <;> decide
  have hat : loopDecision { Skip := some 6, Limit := none } ((4 : Nat) : Int) (some 10)
      = Decision.stop := by decide
  obtain ⟨k, hk1, hk2, hk⟩ := @collectLoop_reaches _ script _ 10 4 hbelow hat
    chunks 0 [] (some 0) hne hserv (by simpa using hlen)
  refine ⟨k, hk1, hk2, ?_⟩
  intro fuel hfuel
  simpa [collectAllProviders] using hk fuel hfuel

/-- Witness of C3: the items 6 to 9 in the pages `[6]`, `[7, 8]`, `[9]`. -/
theorem collectAllProviders_skip_offset_witness :
    ([[6], [7, 8], [9]] : List (List Nat)).flatten.length = 4 ∧
    ∃ k, 1 ≤ k ∧ k ≤ 3 ∧ ∀ fuel, k ≤ fuel →
      collectAllProviders
        (scripted (pagesThen [page [6] 10, page [7, 8] 10, page [9] 10] (emptyPages 10)))
        { Skip := some 6, Limit := none } fuel 0 =
        some (Outcome.returned (some [6, 7, 8, 9]) (some 10) none, k) :=
  ⟨by decide,
   collectAllProviders_skip_offset
     (pagesThen [page [6] 10, page [7, 8] 10, page [9] 10] (emptyPages 10))
     [[6], [7, 8], [9]] (by decide) (serves_pagesThen _ _)⟩

/-! ## P4: error propagation -/

/-- C4 (P4, error propagation): the first `k - 1` fetches are answered with
pages on none of which a stop test matched, and the `k`-th fetch fails.  Then
`collectAllProviders` leaves after exactly `k` fetches with the nil list, the
total count 0 and the error made of the text of that failure
(`fmt.Errorf("%s\n%s", err, response)`), whatever the earlier pages held. -/
theorem collectAllProviders_error_propagation {α : Type} (script : Nat → FetchResult α)
    (options : ListProvidersOptions) (pages : List (APIListProvidersResponse α))
    (e : FetchFailure)
    (hserv : serves script 0 pages)
    (hfail : script pages.length = Except.error e)
    (hagain : ∀ m p, pages[m]? = some p →
      loopDecision options ((allProviders (pages.take (m + 1))).length : Int) p.TotalCount
        = Decision.again)
    (fuel : Nat) (hfuel : pages.length < fuel) :
    collectAllProviders (scripted script) options fuel 0 =
      some (Outcome.returned none (some 0) (some (e.err ++ "\n" ++ e.response)),
        pages.length + 1) := by
  obtain ⟨f, rfl⟩ : ∃ f, fuel = pages.length + (f + 1) :=
    ⟨fuel - pages.length - 1, by omega⟩
  unfold collectAllProviders
  rw [collectLoop_again_run pages 0 [] (some 0) (f + 1) hserv (by simpa using hagain)]
  rw [Nat.zero_add, collectLoop_scripted_error hfail]
  rfl

/-- Witness of C4: the second fetch fails after a first page of two items out
of five. -/
theorem collectAllProviders_error_propagation_witness :
    collectAllProviders
        (scripted (pagesThen [page [1, 2] 5] (fun _ => Except.error gatewayTimeout)))
        { Skip := none, Limit := none } 7 0 =
      some (Outcome.returned none (some 0) (some "gateway timeout\n504"), 2) :=
  collectAllProviders_error_propagation
    (pagesThen [page [1, 2] 5] (fun _ => Except.error gatewayTimeout))
    { Skip := none, Limit := none } [page [1, 2] 5] gatewayTimeout
    (serves_pagesThen _ _) (pagesThen_length _ _)
    (by
      intro m p h
      cases m with
      | zero =>
        simp at h
        subst h
        decide
      | succ m => simp at h)
    7 (by decide)

/-! ## P5: the empty collection -/

/-- C5 (P5, empty collection): when the first fetch answers with an empty page
and the total count 0, and neither skip nor limit is given,
`collectAllProviders` returns the empty list, the total count 0 and no error
after exactly one fetch. -/
theorem collectAllProviders_empty {α : Type} (script : Nat → FetchResult α)
    (hfirst : script 0 = Except.ok (page [] 0)) (fuel : Nat) :
    collectAllProviders (scripted script) { Skip := none, Limit := none } (fuel + 1) 0 =
      some (Outcome.returned (some []) (some 0) none, 1) := by
  unfold collectAllProviders
  rw [collectLoop_scripted_stop hfirst fuel [] (some 0)
    (by simp [page, loopDecision_unbounded])]
  rfl

/-- Witness of C5: a source whose every page is empty with total count 0. -/
theorem collectAllProviders_empty_witness :
    collectAllProviders (scripted (emptyPages 0 : Nat → FetchResult Nat))
        { Skip := none, Limit := none } 1 0 =
      some (Outcome.returned (some []) (some 0) none, 1) :=
  collectAllProviders_empty (emptyPages 0) rfl 0

/-! ## P6 and the output contract -/

/-- C6 (P6, output contract): whenever `collectAllProviders` returns without
error after `k` fetches, all `k` fetches were answered with pages and the
list returned is the concatenation of the items of those pages in fetch order. -/
theorem collectAllProviders_concatenates {α : Type} (script : Nat → FetchResult α)
    (options : ListProvidersOptions) (fuel : Nat) (l : Option (List α)) (t : Option Int)
    (k : Nat)
    (h : collectAllProviders (scripted script) options fuel 0
      = some (Outcome.returned l t none, k)) :
    ∃ pages, pages.length = k ∧ serves script 0 pages ∧ l = some (allProviders pages) := by
  obtain ⟨pages, last, hk, hserv, hl, -, -⟩ := collectLoop_returned_ok _ _ _ _ _ _ _ h
  exact ⟨pages ++ [last], by simp [hk], hserv, by simpa using hl⟩

/-- Witness of C6: ten items in pages of three, no skip, no limit. -/
theorem collectAllProviders_concatenates_witness :
    ∃ pages, pages.length = 4 ∧ serves (pagesThen pagesOfThree (emptyPages 10)) 0 pages ∧
      some [0, 1, 2, 3, 4, 5, 6, 7, 8, 9] = some (allProviders pages) :=
  collectAllProviders_concatenates (pagesThen pagesOfThree (emptyPages 10))
    { Skip := none, Limit := none } 4 (some [0, 1, 2, 3, 4, 5, 6, 7, 8, 9]) (some 10) 4
    (by decide)

/-- C7 (last-seen total): whenever `collectAllProviders` returns without error
after `k` fetches, `k` is at least 1 and the total count returned is the one
the `k`-th, last, page reported. -/
theorem collectAllProviders_last_total {α : Type} (script : Nat → FetchResult α)
    (options : ListProvidersOptions) (fuel : Nat) (l : Option (List α)) (t : Option Int)
    (k : Nat)
    (h : collectAllProviders (scripted script) options fuel 0
      = some (Outcome.returned l t none, k)) :
    1 ≤ k ∧ ∃ p, script (k - 1) = Except.ok p ∧ t = p.TotalCount := by
  obtain ⟨pages, last, hk, hserv, -, ht, -⟩ := collectLoop_returned_ok _ _ _ _ _ _ _ h
  refine ⟨by omega, last, ?_, ht⟩
  have := hserv pages.length last (by simp)
  rw [hk]
  simpa using this

/-- Witness of C7: the first page reports the total 5, the second the total 2;
the total returned is 2. -/
theorem collectAllProviders_last_total_witness :
    1 ≤ 2 ∧ ∃ p, pagesThen driftingPages (emptyPages 2) (2 - 1) = Except.ok p ∧
      some 2 = p.TotalCount :=
  collectAllProviders_last_total (pagesThen driftingPages (emptyPages 2))
    { Skip := none, Limit := none } 2 (some [1, 2]) (some 2) 2 (by decide)

/-- C8 (invariant, no bounds): with neither skip nor limit, whenever
`collectAllProviders` returns without error, the number of items returned equals
the total count returned. -/
theorem collectAllProviders_unbounded_complete {α : Type} (script : Nat → FetchResult α)
    (fuel : Nat) (l : Option (List α)) (t : Option Int) (k : Nat)
    (h : collectAllProviders (scripted script) { Skip := none, Limit := none } fuel 0
      = some (Outcome.returned l t none, k)) :
    ∃ items, l = some items ∧ t = some (items.length : Int) := by
  obtain ⟨pages, last, -, -, hl, ht, hstop⟩ := collectLoop_returned_ok _ _ _ _ _ _ _ h
  refine ⟨allProviders (pages ++ [last]), by simpa using hl, ?_⟩
  rw [ht]
  cases htc : last.TotalCount with
  | none =>
    rw [htc] at hstop
    simp [loopDecision, limitRule, skipRule, noLimitRule] at hstop
  | some total =>
    rw [htc, loopDecision_unbounded] at hstop
    by_cases hn : (([] ++ allProviders (pages ++ [last])).length : Int) = total
    · rw [← hn]
      simp
    · rw [if_neg hn] at hstop
      exact absurd hstop (by decide)

/-- Witness of C8: ten items in pages of three, no skip, no limit. -/
theorem collectAllProviders_unbounded_complete_witness :
    ∃ items, some [0, 1, 2, 3, 4, 5, 6, 7, 8, 9] = some items ∧
      some (10 : Int) = some (items.length : Int) :=
  collectAllProviders_unbounded_complete (pagesThen pagesOfThree (emptyPages 10))
    4 (some [0, 1, 2, 3, 4, 5, 6, 7, 8, 9]) (some 10) 4 (by decide)

/-! ## The limit as an upper bound -/

/-- C9, counterexample: skip 2 and limit 4 against a collection of eight
served in pages of three.  After the first page the accumulator holds 3
items, after the second 6, which is `8 - 2`: the skip test matches and six
items are returned, more than the limit. -/
theorem limit_exceeded_with_skip :
    collectAllProviders (scripted (pagesThen skippedPagesOfThree (emptyPages 8)))
        { Skip := some 2, Limit := some 4 } 2 0 =
      some (Outcome.returned (some [2, 3, 4, 5, 6, 7]) (some 8) none, 2) ∧
    ¬ (([2, 3, 4, 5, 6, 7] : List Nat).length ≤ 4) := by
  decide

/-- C9, amended: whenever `collectAllProviders` returns without error and a
limit `L` is given, the number of items returned is exactly `L`, or a skip is
given as well and the number of items is the last total count minus the skip
(in `int64` arithmetic).  In particular, when no skip is given the number of
items is at most `L`. -/
theorem collectAllProviders_limit_bound {α : Type} (script : Nat → FetchResult α)
    (options : ListProvidersOptions) (limit : Int) (fuel : Nat) (l : Option (List α))
    (t : Option Int) (k : Nat)
    (hlimit : options.Limit = some limit)
    (h : collectAllProviders (scripted script) options fuel 0
      = some (Outcome.returned l t none, k)) :
    ∃ items, l = some items ∧
      ((items.length : Int) = limit ∨
        ∃ skip total, options.Skip = some skip ∧ t = some total ∧
          (items.length : Int) = wrapInt64 (total - skip)) ∧
      (options.Skip = none → (items.length : Int) ≤ limit) := by
  obtain ⟨pages, last, -, -, hl, ht, hstop⟩ := collectLoop_returned_ok _ _ _ _ _ _ _ h
  obtain ⟨skip, lim⟩ := options
  simp only at hlimit
  subst hlimit
  refine ⟨allProviders (pages ++ [last]), by simpa using hl, ?_⟩
  simp only [List.nil_append] at hstop
  generalize ((allProviders (pages ++ [last])).length : Int) = n at hstop ⊢
  rw [ht]
  by_cases hn : n = limit
  · exact ⟨Or.inl hn, fun _ => le_of_eq hn⟩
  · cases skip with
    | none =>
      rw [loopDecision_limit_only, if_neg hn] at hstop
      exact absurd hstop (by decide)
    | some skip =>
      cases htc : last.TotalCount with
      | none =>
        rw [htc] at hstop
        simp [loopDecision, limitRule, skipRule, noLimitRule, hn] at hstop
      | some total =>
        rw [htc] at hstop
        refine ⟨Or.inr ⟨skip, total, rfl, rfl, ?_⟩, fun hs => by simp at hs⟩
        by_contra hne
        simp [loopDecision, limitRule, skipRule, noLimitRule, hn, hne] at hstop

/-- Witness of C9 amended: limit 4 and no skip against ten items in pages of
two. -/
theorem collectAllProviders_limit_bound_witness :
    ∃ items, some [0, 1, 2, 3] = some items ∧
      ((items.length : Int) = 4 ∨
        ∃ skip total, (none : Option Int) = some skip ∧ some (10 : Int) = some total ∧
          (items.length : Int) = wrapInt64 (total - skip)) ∧
      ((none : Option Int) = none → (items.length : Int) ≤ 4) :=
  collectAllProviders_limit_bound
    (pagesThen
      [page [0, 1] 10, page [2, 3] 10, page [4, 5] 10, page [6, 7] 10, page [8, 9] 10]
      (emptyPages 10))
    { Skip := none, Limit := some 4 } 4 2 (some [0, 1, 2, 3]) (some 10) 2 rfl (by decide)

/-! ## The termination policy -/

/-- C10, counterexample: skip 6, no limit, an accumulator of 10 items and a
page reporting the total 10.  The third test of the loop asks only that no
limit is given, so the loop stops, while the policy of the specification
(10 is not `10 - 6`, and a skip is given) says to fetch again. -/
theorem stop_decision_differs_from_spec_policy :
    loopDecision { Skip := some 6, Limit := none } 10 (some 10) = Decision.stop ∧
    specTerminationPolicy { Skip := some 6, Limit := none } 10 10 = false := by
  decide

/-- C10, amended: with `n` the length of the accumulator and `total` the total
count of the page, and the subtraction `total - skip` within `int64`, the
loop stops if and only if a limit is given and `n` equals it, or a skip is given
and `n = total - skip`, or no limit is given and `n = total`; in every other
case it fetches again. -/
theorem loopDecision_refines_observed_policy (options : ListProvidersOptions)
    (n total : Int)
    (hrange : ∀ skip, options.Skip = some skip → isInt64 (total - skip)) :
    loopDecision options n (some total) =
      if observedTerminationPolicy options n total = true then Decision.stop
      else Decision.again := by
  obtain ⟨skip, limit⟩ := options
  cases skip with
  | none =>
    cases limit with
    | none =>
      by_cases h : n = total <;>
        simp [loopDecision, limitRule, skipRule, noLimitRule, observedTerminationPolicy, h]
    | some limit =>
      by_cases h : n = limit <;>
        simp [loopDecision, limitRule, skipRule, noLimitRule, observedTerminationPolicy, h]
  | some skip =>
    have hw : wrapInt64 (total - skip) = total - skip :=
      wrapInt64_of_isInt64 (hrange skip rfl)
    cases limit with
    | none =>
      by_cases h1 : n = total - skip
      · simp [loopDecision, limitRule, skipRule, noLimitRule, observedTerminationPolicy,
          hw, h1]
      · by_cases h2 : n = total
        · subst h2
          simp [loopDecision, limitRule, skipRule, noLimitRule, observedTerminationPolicy,
            hw, h1]
        · simp [loopDecision, limitRule, skipRule, noLimitRule, observedTerminationPolicy,
            hw, h1, h2]
    | some limit =>
      by_cases h2 : n = limit
      · simp [loopDecision, limitRule, skipRule, noLimitRule, observedTerminationPolicy, h2]
      · by_cases h1 : n = total - skip
        · simp [loopDecision, limitRule, skipRule, noLimitRule, observedTerminationPolicy,
            hw, h1]
        · simp [loopDecision, limitRule, skipRule, noLimitRule, observedTerminationPolicy,
            hw, h1, h2]

/-- Witness of C10 amended: skip 6, no limit, 10 items accumulated and the
total 10: no limit is given and `n = total`, so the loop stops. -/
theorem loopDecision_refines_observed_policy_witness :
    loopDecision { Skip := some 6, Limit := none } 10 (some 10) =
      if observedTerminationPolicy { Skip := some 6, Limit := none } 10 10 = true
      then Decision.stop else Decision.again :=
  loopDecision_refines_observed_policy { Skip := some 6, Limit := none } 10 10
    (by
      intro skip h
      cases h
      decide)

/-! ## Constant sources -/

/-- A source that answers every call with the same empty page never gets the
loop past a length at which the tests say `again`. -/
theorem collectLoop_stalls {α : Type} {script : Nat → FetchResult α}
    {options : ListProvidersOptions} (tc0 : Option Int) (acc : List α)
    (hscript : ∀ i, script i = Except.ok { Providers := [], TotalCount := tc0 })
    (hd : loopDecision options (acc.length : Int) tc0 = Decision.again) :
    ∀ (fuel i : Nat) (tc : Option Int),
      collectLoop (scripted script) options fuel i acc tc = none := by
  intro fuel
  induction fuel with
  | zero => intro i tc; rfl
  | succ fuel ih =>
    intro i tc
    rw [collectLoop_scripted_again (hscript i) fuel acc tc (by simpa using hd)]
    simpa using ih (i + 1) tc0

/-- Against the stateless server the loop runs as against the script that
repeats the requested slice. -/
theorem collectLoop_statelessServer {α : Type} (collection : List α)
    (options : ListProvidersOptions) :
    ∀ (fuel i : Nat) (acc : List α) (tc : Option Int),
      collectLoop (statelessServer collection) options fuel i acc tc =
        collectLoop
          (scripted (fun _ =>
            Except.ok (page (requestedSlice collection options) (collection.length : Int))))
          options fuel i acc tc := by
  intro fuel
  induction fuel with
  | zero => intro i acc tc; rfl
  | succ fuel ih =>
    intro i acc tc
    simp only [collectLoop, statelessServer, scripted]
    cases loopDecision options
        ((acc ++ (page (requestedSlice collection options)
          (collection.length : Int)).Providers).length : Int)
        (page (requestedSlice collection options) (collection.length : Int)).TotalCount with
    | stop => rfl
    | nilDereference => rfl
    | again => exact ih _ _ _

/-- Pages served by a script that always gives the same page are copies of that
page. -/
theorem serves_constant {α : Type} (p : APIListProvidersResponse α) :
    ∀ (pages : List (APIListProvidersResponse α)) (i : Nat),
      serves (fun _ => Except.ok p) i pages → pages = List.replicate pages.length p := by
  intro pages
  induction pages with
  | nil => intro i _; rfl
  | cons q qs ih =>
    intro i h
    obtain ⟨h0, hrest⟩ := serves_cons.mp h
    have hq : p = q := by simpa using h0
    subst hq
    rw [List.length_cons, List.replicate_succ, ← ih (i + 1) hrest]

theorem allProviders_replicate {α : Type} (p : APIListProvidersResponse α) (k : Nat) :
    allProviders (List.replicate k p) = (List.replicate k p.Providers).flatten := by
  simp [allProviders]

/-! ## An absent skip and the skip 0 -/

/-- Without a limit the tests decide alike for an absent skip and for the skip
0, as long as the total count is an `int64`. -/
theorem loopDecision_skip_zero (n : Int) (tc : Option Int)
    (hrange : ∀ total, tc = some total → isInt64 total) :
    loopDecision { Skip := none, Limit := none } n tc =
      loopDecision { Skip := some 0, Limit := none } n tc := by
  cases tc with
  | none => simp [loopDecision, limitRule, skipRule, noLimitRule]
  | some total =>
    have hw : wrapInt64 total = total := wrapInt64_of_isInt64 (hrange total rfl)
    by_cases h : n = total <;>
      simp [loopDecision, limitRule, skipRule, noLimitRule, hw, h]

/-- Options that hold the skip 0 next to a limit, which the data source never
builds: limit 4, a first page of three items reporting the total 3 and a
second page with a fourth item reporting the total 4.  With the skip absent
only the limit test can match: the loop returns four items after two fetches.
With a pointer to 0 as skip the skip test matches on the first page (3 is
`3 - 0`): the loop returns three items after one fetch. -/
theorem absent_skip_differs_from_zero_with_limit :
    collectAllProviders (scripted (pagesThen growingPages (emptyPages 4)))
        { Skip := none, Limit := some 4 } 2 0 =
      some (Outcome.returned (some [0, 1, 2, 3]) (some 4) none, 2) ∧
    collectAllProviders (scripted (pagesThen growingPages (emptyPages 4)))
        { Skip := some 0, Limit := some 4 } 2 0 =
      some (Outcome.returned (some [0, 1, 2]) (some 3) none, 1) := by
  decide

/-- The loop runs alike for an absent skip and for the skip 0 when no limit is
given and the total counts are `int64` values. -/
theorem collectLoop_skip_zero {α : Type} (script : Nat → FetchResult α)
    (hrange : ∀ i p total, script i = Except.ok p → p.TotalCount = some total →
      isInt64 total) :
    ∀ (fuel i : Nat) (acc : List α) (tc : Option Int),
      collectLoop (scripted script) { Skip := none, Limit := none } fuel i acc tc =
        collectLoop (scripted script) { Skip := some 0, Limit := none } fuel i acc tc := by
  intro fuel
  induction fuel with
  | zero => intro i acc tc; rfl
  | succ fuel ih =>
    intro i acc tc
    cases hs : script i with
    | error e => rw [collectLoop_scripted_error hs, collectLoop_scripted_error hs]
    | ok p =>
      have heq := loopDecision_skip_zero ((acc ++ p.Providers).length : Int) p.TotalCount
        (fun total ht => hrange i p total hs ht)
      cases hd : loopDecision { Skip := none, Limit := none }
          ((acc ++ p.Providers).length : Int) p.TotalCount with
      | stop =>
        rw [collectLoop_scripted_stop hs fuel acc tc hd,
          collectLoop_scripted_stop hs fuel acc tc (heq.symm.trans hd)]
      | nilDereference =>
        rw [collectLoop_scripted_nilDereference hs fuel acc tc hd,
          collectLoop_scripted_nilDereference hs fuel acc tc (heq.symm.trans hd)]
      | again =>
        rw [collectLoop_scripted_again hs fuel acc tc hd,
          collectLoop_scripted_again hs fuel acc tc (heq.symm.trans hd)]
        exact ih _ _ _

/-- Inside the collector, when no limit is given, a nil skip and a pointer to 0
as skip run alike: for every sequence of answers whose total counts are `int64`
values and every amount of fuel the outcome and the number of fetches are the
same.  On the data source a configured skip of 0 is not passed on at all, so
there an absent skip and the skip 0 give the same options for every limit. -/
theorem collectAllProviders_absent_skip_is_zero {α : Type} (script : Nat → FetchResult α)
    (hrange : ∀ i p total, script i = Except.ok p → p.TotalCount = some total →
      isInt64 total)
    (fuel : Nat) :
    collectAllProviders (scripted script) { Skip := none, Limit := none } fuel 0 =
      collectAllProviders (scripted script) { Skip := some 0, Limit := none } fuel 0 ∧
    ∀ limit, listProvidersOptionsOf none limit = listProvidersOptionsOf (some 0) limit :=
  ⟨collectLoop_skip_zero script hrange fuel 0 [] (some 0), fun _ => rfl⟩

/-- An instance of the fact above: a source that answers every call with the
two items of a collection of two. -/
theorem collectAllProviders_absent_skip_is_zero_witness :
    collectAllProviders (scripted (fun _ => Except.ok (page [1, 2] 2)))
        { Skip := none, Limit := none } 3 0 =
      collectAllProviders (scripted (fun _ => Except.ok (page [1, 2] 2)))
        { Skip := some 0, Limit := none } 3 0 ∧
    ∀ limit, listProvidersOptionsOf none limit = listProvidersOptionsOf (some 0) limit :=
  collectAllProviders_absent_skip_is_zero (fun _ => Except.ok (page [1, 2] 2))
    (by
      intro i p total hs ht
      cases hs
      cases ht
      decide)
    3

/-- C11 (an absent skip is the skip 0): for every fetch source, and so for
every sequence of page responses, every configured limit, every amount of fuel
and every state of the source, the collection the data source runs with no skip
configured and the one it runs with the skip 0 configured have the same
outcome: the same items, total count and error after the same fetches, or both
still running.  The options built for the skip 0 carry a nil `Skip`, since
`d.GetOk` reports a zero value as not set; every other skip, and every limit
other than 0, is passed on as configured. -/
theorem dataSource_absent_skip_is_zero {σ α : Type} (fetch : ListProviders σ α)
    (limit : Option Int) (fuel : Nat) (s : σ) :
    dataSourceCollect fetch none limit fuel s = dataSourceCollect fetch (some 0) limit fuel s ∧
    listProvidersOptionsOf (some 0) limit = { Skip := none, Limit := getOkInt limit } ∧
    dataSourceCollect fetch (some 0) limit fuel s =
      collectAllProviders fetch { Skip := none, Limit := getOkInt limit } fuel s ∧
    (∀ skip, skip ≠ 0 →
      dataSourceCollect fetch (some skip) limit fuel s =
        collectAllProviders fetch { Skip := some skip, Limit := getOkInt limit } fuel s) ∧
    (∀ value, value ≠ 0 → getOkInt (some value) = some value) :=
  ⟨rfl, rfl, rfl,
   fun skip h => by simp [dataSourceCollect, listProvidersOptionsOf, getOkInt, h],
   fun value h => by simp [getOkInt, h]⟩

/-- Witness of C11: limit 4 against a first page of three items and a second
page with a fourth; with no skip and with the skip 0 configured the data source
collects the four items in two fetches. -/
theorem dataSource_absent_skip_is_zero_witness :
    dataSourceCollect (scripted (pagesThen growingPages (emptyPages 4))) none (some 4) 2 0 =
      some (Outcome.returned (some [0, 1, 2, 3]) (some 4) none, 2) ∧
    dataSourceCollect (scripted (pagesThen growingPages (emptyPages 4))) none (some 4) 2 0 =
      dataSourceCollect (scripted (pagesThen growingPages (emptyPages 4))) (some 0) (some 4)
        2 0 :=
  ⟨by decide,
   (dataSource_absent_skip_is_zero (scripted (pagesThen growingPages (emptyPages 4)))
      (some 4) 2 0).1⟩

/-! ## The stateless server -/

theorem requestedSlice_sublist {α : Type} (collection : List α)
    (options : ListProvidersOptions) :
    (requestedSlice collection options).Sublist collection := by
  unfold requestedSlice
  cases options.Limit with
  | none => exact List.drop_sublist _ _
  | some limit => exact (List.take_sublist _ _).trans (List.drop_sublist _ _)

/-- The slice is empty when the skip lies beyond the collection. -/
theorem requestedSlice_beyond {α : Type} (collection : List α)
    (options : ListProvidersOptions) (skip : Int) (hs : options.Skip = some skip)
    (hbeyond : (collection.length : Int) < skip) :
    requestedSlice collection options = [] := by
  unfold requestedSlice
  have hdrop : collection.drop (options.Skip.getD 0).toNat = [] := by
    rw [hs]
    apply List.drop_eq_nil_of_le
    simp only [Option.getD_some]
    omega
  rw [hdrop]
  cases options.Limit <;> simp

/-- On the first answer of the stateless server one of the tests matches, when
the skip, if given, lies within the collection, the limit, if given, is at
least 1, and a skip is given or no limit is given or the limit does not exceed
the size of the collection. -/
theorem requestedSlice_first_stop {α : Type} (collection : List α)
    (options : ListProvidersOptions)
    (hN : (collection.length : Int) < 2 ^ 63)
    (hskip : ∀ skip, options.Skip = some skip → 0 ≤ skip ∧ skip ≤ collection.length)
    (hlimit : ∀ limit, options.Limit = some limit → 1 ≤ limit)
    (hcond : options.Skip ≠ none ∨ options.Limit = none ∨
      ∃ limit, options.Limit = some limit ∧ limit ≤ collection.length) :
    loopDecision options ((requestedSlice collection options).length : Int)
      (some (collection.length : Int)) = Decision.stop := by
  obtain ⟨skip, limit⟩ := options
  cases skip with
  | none =>
    cases limit with
    | none =>
      rw [loopDecision_unbounded]
      simp [requestedSlice]
    | some limit =>
      rw [loopDecision_limit_only]
      have h1 := hlimit limit rfl
      have h2 : limit ≤ collection.length := by
        rcases hcond with h | h | ⟨l, hl, hle⟩
        · exact absurd rfl h
        · simp at h
        · simp only [Option.some.injEq] at hl
          subst hl
          exact hle
      rw [if_pos]
      simp only [requestedSlice, Option.getD_none, Int.toNat_zero, List.drop_zero,
        List.length_take]
      omega
  | some skip =>
    obtain ⟨hs0, hsN⟩ := hskip skip rfl
    have hw : wrapInt64 ((collection.length : Int) - skip) = (collection.length : Int) - skip := by
      apply wrapInt64_of_isInt64
      unfold isInt64
      omega
    cases limit with
    | none =>
      have hlen : ((requestedSlice collection { Skip := some skip, Limit := none }).length : Int)
          = (collection.length : Int) - skip := by
        simp only [requestedSlice, Option.getD_some, List.length_drop]
        omega
      simp [loopDecision, limitRule, skipRule, noLimitRule, hw, hlen]
    | some limit =>
      have h1 := hlimit limit rfl
      by_cases hle : limit ≤ (collection.length : Int) - skip
      · have hlen : ((requestedSlice collection
            { Skip := some skip, Limit := some limit }).length : Int) = limit := by
          simp only [requestedSlice, Option.getD_some, List.length_take, List.length_drop]
          omega
        simp [loopDecision, limitRule, hlen]
      · have hlen : ((requestedSlice collection
            { Skip := some skip, Limit := some limit }).length : Int)
            = (collection.length : Int) - skip := by
          simp only [requestedSlice, Option.getD_some, List.length_take, List.length_drop]
          omega
        have hne : ¬ (collection.length : Int) - skip = limit := by omega
        simp [loopDecision, limitRule, skipRule, noLimitRule, hw, hlen, hne]

/-- C12, counterexample: a collection of two items, limit 4, no skip.  The
stateless server answers every call with the same two items; no test matches
at length 2, the limit test matches at length 4, and the loop returns the two
items twice, not the slice `[0, 1]`. -/
theorem stateless_limit_repeats_items :
    collectAllProviders (statelessServer [0, 1]) { Skip := none, Limit := some 4 } 2 0 =
      some (Outcome.returned (some [0, 1, 0, 1]) (some 2) none, 2) ∧
    requestedSlice [0, 1] { Skip := none, Limit := some 4 } = [0, 1] := by
  decide

/-- C12, amended: against the stateless server over a collection of `N` items
(skip at least 0 and limit at least 1 when given), whenever
`collectAllProviders` returns without error after `k` fetches, the list
returned is `k` copies of the requested slice one after the other and the
total count returned is `N`.  When a skip is given, or no limit is given, or the
limit does not exceed `N`, it returned after one fetch and the list is exactly
the slice, a part of the collection in the order of the collection. -/
theorem collectAllProviders_stateless_result {α : Type} (collection : List α)
    (options : ListProvidersOptions) (fuel : Nat) (l : Option (List α)) (t : Option Int)
    (k : Nat)
    (hN : (collection.length : Int) < 2 ^ 63)
    (hskip : ∀ skip, options.Skip = some skip → 0 ≤ skip)
    (hlimit : ∀ limit, options.Limit = some limit → 1 ≤ limit)
    (h : collectAllProviders (statelessServer collection) options fuel 0
      = some (Outcome.returned l t none, k)) :
    1 ≤ k ∧
    l = some (List.replicate k (requestedSlice collection options)).flatten ∧
    t = some (collection.length : Int) ∧
    ((options.Skip ≠ none ∨ options.Limit = none ∨
        ∃ limit, options.Limit = some limit ∧ limit ≤ collection.length) →
      k = 1 ∧ l = some (requestedSlice collection options) ∧
        (requestedSlice collection options).Sublist collection) := by
  unfold collectAllProviders at h
  rw [collectLoop_statelessServer] at h
  have hall := h
  obtain ⟨pages, last, hk, hserv, hl, ht, -⟩ := collectLoop_returned_ok _ _ _ _ _ _ _ hall
  have hrep := serves_constant _ _ _ hserv
  have hlast : last = page (requestedSlice collection options) (collection.length : Int) := by
    have hmem : last ∈ pages ++ [last] := by simp
    rw [hrep] at hmem
    exact List.eq_of_mem_replicate hmem
  have hk1 : (pages ++ [last]).length = k := by simp [hk]
  refine ⟨by omega, ?_, by rw [ht, hlast]; rfl, ?_⟩
  · rw [hl, hrep, hk1, allProviders_replicate]
    rfl
  · intro hcond
    cases fuel with
    | zero => simp [collectLoop] at h
    | succ fuel =>
      cases hd : loopDecision options
          (([] ++ (page (requestedSlice collection options)
            (collection.length : Int)).Providers).length : Int)
          (page (requestedSlice collection options) (collection.length : Int)).TotalCount with
      | stop =>
        rw [collectLoop_scripted_stop rfl fuel [] (some 0) hd] at h
        simp only [Option.some.injEq, Prod.mk.injEq, Outcome.returned.injEq, true_and] at h
        obtain ⟨⟨hl1, -, -⟩, hk⟩ := h
        refine ⟨hk.symm, ?_, requestedSlice_sublist _ _⟩
        rw [← hl1]
        rfl
      | nilDereference =>
        rw [collectLoop_scripted_nilDereference rfl fuel [] (some 0) hd] at h
        simp at h
      | again =>
        exfalso
        by_cases hin : ∀ skip, options.Skip = some skip → skip ≤ (collection.length : Int)
        · have hstop := requestedSlice_first_stop collection options hN
            (fun skip hs => ⟨hskip skip hs, hin skip hs⟩) hlimit hcond
          simp only [page, List.nil_append] at hd
          rw [hstop] at hd
          exact absurd hd (by decide)
        · push_neg at hin
          obtain ⟨skip, hs, hlt⟩ := hin
          have hempty := requestedSlice_beyond collection options skip hs hlt
          rw [hempty] at h hd
          have hnone := @collectLoop_stalls α
            (fun _ => Except.ok (page [] (collection.length : Int))) options
            (some (collection.length : Int)) [] (fun _ => rfl)
            (by simpa [page] using hd) (fuel + 1) 0 (some 0)
          rw [hnone] at h
          exact absurd h (by simp)

/-- Witness of C12 amended: skip 1 and limit 2 on a collection of four. -/
theorem collectAllProviders_stateless_result_witness :
    1 ≤ 1 ∧
    some [11, 12] = some (List.replicate 1
      (requestedSlice [10, 11, 12, 13] { Skip := some 1, Limit := some 2 })).flatten ∧
    some (4 : Int) = some ((([10, 11, 12, 13] : List Nat).length : Nat) : Int) ∧
    (((some 1 : Option Int) ≠ none ∨ (some 2 : Option Int) = none ∨
        ∃ limit, (some 2 : Option Int) = some limit ∧
          limit ≤ (([10, 11, 12, 13] : List Nat).length : Int)) →
      1 = 1 ∧ some [11, 12] = some
          (requestedSlice [10, 11, 12, 13] { Skip := some 1, Limit := some 2 }) ∧
        (requestedSlice [10, 11, 12, 13] { Skip := some 1, Limit := some 2 }).Sublist
          [10, 11, 12, 13]) :=
  collectAllProviders_stateless_result [10, 11, 12, 13] { Skip := some 1, Limit := some 2 }
    3 (some [11, 12]) (some 4) 1 (by decide)
    (by intro skip h; cases h; decide) (by intro limit h; cases h; decide) (by decide)

/-! ## Termination against the stateless server -/

/-- C13, counterexample: against the stateless server, with no skip, the loop
never leaves for five items and limit 7 (the accumulator holds 5, 10, 15, ...
items, never 7), nor for an empty collection and limit 4 (the accumulator
stays empty). -/
theorem stateless_limit_beyond_collection_never_returns :
    (¬ ∃ (fuel : Nat) (out : Outcome Nat × Nat),
      collectAllProviders (statelessServer [0, 1, 2, 3, 4])
        { Skip := none, Limit := some 7 } fuel 0 = some out) ∧
    (¬ ∃ (fuel : Nat) (out : Outcome Nat × Nat),
      collectAllProviders (statelessServer ([] : List Nat))
        { Skip := none, Limit := some 4 } fuel 0 = some out) := by
  constructor
  · rintro ⟨fuel, out, h⟩
    have key : ∀ (fuel i : Nat) (acc : List Nat) (tc : Option Int), acc.length % 5 = 0 →
        collectLoop (scripted (fun _ => Except.ok (page [0, 1, 2, 3, 4] 5)))
          { Skip := none, Limit := some 7 } fuel i acc tc = none := by
      intro fuel
      induction fuel with
      | zero => intro i acc tc _; rfl
      | succ fuel ih =>
        intro i acc tc hacc
        have hd : loopDecision { Skip := none, Limit := some 7 }
            ((acc ++ (page [0, 1, 2, 3, 4] 5).Providers).length : Int)
            (page [0, 1, 2, 3, 4] 5).TotalCount = Decision.again := by
          rw [loopDecision_limit_only, if_neg]
          simp only [page, List.length_append, List.length_cons, List.length_nil]
          omega
        rw [collectLoop_scripted_again rfl fuel acc tc hd]
        apply ih
        simp only [page, List.length_append, List.length_cons, List.length_nil]
        omega
    unfold collectAllProviders at h
    rw [collectLoop_statelessServer] at h
    have hnone := key fuel 0 [] (some 0) rfl
    have hsame : requestedSlice [0, 1, 2, 3, 4] { Skip := none, Limit := some 7 }
        = [0, 1, 2, 3, 4] := by decide
    rw [hsame] at h
    rw [show (([0, 1, 2, 3, 4] : List Nat).length : Int) = 5 from rfl, hnone] at h
    exact absurd h (by simp)
  · rintro ⟨fuel, out, h⟩
    unfold collectAllProviders at h
    rw [collectLoop_statelessServer] at h
    have hnone := @collectLoop_stalls Nat
      (fun _ => Except.ok (page (requestedSlice ([] : List Nat)
        { Skip := none, Limit := some 4 }) ((([] : List Nat).length : Nat) : Int)))
      { Skip := none, Limit := some 4 } (some 0) [] (fun _ => rfl) (by decide)
      fuel 0 (some 0)
    rw [hnone] at h
    exact absurd h (by simp)

/-- C13, amended: against the stateless server over a collection of `N` items
(`N` below `2 ^ 63`), with a skip, when given, between 0 and `N` and a limit,
when given, at least 1, `collectAllProviders` returns after exactly one fetch,
with the requested slice and the total count `N`, provided a skip is given, or
no limit is given, or the limit does not exceed `N`. -/
theorem collectAllProviders_stateless_terminates {α : Type} (collection : List α)
    (options : ListProvidersOptions)
    (hN : (collection.length : Int) < 2 ^ 63)
    (hskip : ∀ skip, options.Skip = some skip → 0 ≤ skip ∧ skip ≤ collection.length)
    (hlimit : ∀ limit, options.Limit = some limit → 1 ≤ limit)
    (hcond : options.Skip ≠ none ∨ options.Limit = none ∨
      ∃ limit, options.Limit = some limit ∧ limit ≤ collection.length)
    (fuel : Nat) :
    collectAllProviders (statelessServer collection) options (fuel + 1) 0 =
      some (Outcome.returned (some (requestedSlice collection options))
        (some (collection.length : Int)) none, 1) := by
  unfold collectAllProviders
  rw [collectLoop_statelessServer]
  have hstop := requestedSlice_first_stop collection options hN hskip hlimit hcond
  rw [collectLoop_scripted_stop rfl fuel [] (some 0) (by simpa [page] using hstop)]
  rfl

/-- Witness of C13 amended: skip 2 and limit 7 on a collection of five: the
three items left are returned after one fetch. -/
theorem collectAllProviders_stateless_terminates_witness :
    collectAllProviders (statelessServer [0, 1, 2, 3, 4])
        { Skip := some 2, Limit := some 7 } (0 + 1) 0 =
      some (Outcome.returned
        (some (requestedSlice [0, 1, 2, 3, 4] { Skip := some 2, Limit := some 7 }))
        (some ((([0, 1, 2, 3, 4] : List Nat).length : Nat) : Int)) none, 1) :=
  collectAllProviders_stateless_terminates [0, 1, 2, 3, 4]
    { Skip := some 2, Limit := some 7 } (by decide)
    (by intro skip h; cases h; decide) (by intro limit h; cases h; decide)
    (Or.inl (by decide)) 0

/-! ## The page request is never modified -/

/-- Against a recording source the loop leaves, when it leaves, with the
options it was given noted once per fetch. -/
theorem collectLoop_recording {σ α : Type} (fetch : ListProviders σ α)
    (options : ListProvidersOptions) :
    ∀ (fuel : Nat) (s : σ) (log : List ListProvidersOptions) (acc : List α)
      (tc : Option Int) (out : Outcome α) (s1 : σ) (log1 : List ListProvidersOptions),
      collectLoop (recording fetch) options fuel (s, log) acc tc = some (out, (s1, log1)) →
      ∃ k, 1 ≤ k ∧ log1 = log ++ List.replicate k options := by
  intro fuel
  induction fuel with
  | zero =>
    intro s log acc tc out s1 log1 h
    simp [collectLoop] at h
  | succ fuel ih =>
    intro s log acc tc out s1 log1 h
    simp only [collectLoop, recording] at h
    cases hf : (fetch options s).1 with
    | error e =>
      rw [hf] at h
      simp only [Option.some.injEq, Prod.mk.injEq] at h
      exact ⟨1, le_refl 1, by rw [← h.2.2]; rfl⟩
    | ok resp =>
      rw [hf] at h
      simp only at h
      cases hd : loopDecision options ((acc ++ resp.Providers).length : Int)
          resp.TotalCount with
      | stop =>
        rw [hd] at h
        simp only [Option.some.injEq, Prod.mk.injEq] at h
        exact ⟨1, le_refl 1, by rw [← h.2.2]; rfl⟩
      | nilDereference =>
        rw [hd] at h
        simp only [Option.some.injEq, Prod.mk.injEq] at h
        exact ⟨1, le_refl 1, by rw [← h.2.2]; rfl⟩
      | again =>
        rw [hd] at h
        obtain ⟨k, hk, hlog⟩ := ih _ _ _ _ _ _ _ h
        refine ⟨k + 1, by omega, ?_⟩
        rw [hlog, List.append_assoc, List.replicate_succ]
        rfl

/-- C14 (frame): `collectAllProviders` never modifies the page request.
Whenever it leaves, with whatever outcome, every fetch it made received the
options of the initial request: the source has noted them once per fetch, at
least once, and nothing else. -/
theorem collectAllProviders_reissues_options {σ α : Type} (fetch : ListProviders σ α)
    (options : ListProvidersOptions) (fuel : Nat) (s : σ) (out : Outcome α) (s1 : σ)
    (log1 : List ListProvidersOptions)
    (h : collectAllProviders (recording fetch) options fuel (s, []) = some (out, (s1, log1))) :
    ∃ k, 1 ≤ k ∧ log1 = List.replicate k options := by
  obtain ⟨k, hk, hlog⟩ := collectLoop_recording fetch options fuel s [] [] (some 0) out s1 log1 h
  exact ⟨k, hk, by simpa using hlog⟩

/-- Witness of C14: skip 4 and limit 6 against ten items in pages of three;
the loop leaves after two fetches, both with the options of the request. -/
theorem collectAllProviders_reissues_options_witness :
    ∃ k, 1 ≤ k ∧
      [({ Skip := some 4, Limit := some 6 } : ListProvidersOptions),
        { Skip := some 4, Limit := some 6 }]
        = List.replicate k { Skip := some 4, Limit := some 6 } :=
  collectAllProviders_reissues_options
    (scripted (pagesThen pagesOfThree (emptyPages 10)))
    { Skip := some 4, Limit := some 6 } 5 0
    (Outcome.returned (some [0, 1, 2, 3, 4, 5]) (some 10) none) 2
    [{ Skip := some 4, Limit := some 6 }, { Skip := some 4, Limit := some 6 }]
    (by decide)

/-! ## Pagination that does not end -/

/-- C15 (undetected non-termination): a source always answers with an empty
page and the constant total count `T > 0`, and the request has neither skip
nor limit.  At the empty accumulator no test matches, and for every number `n`
of fetches the loop has neither returned nor produced an error. -/
theorem collectAllProviders_never_returns {α : Type} (total : Int) (htotal : 0 < total)
    (n : Nat) :
    loopDecision { Skip := none, Limit := none } ((([] : List α).length : Nat) : Int)
      (some total) = Decision.again ∧
    collectAllProviders (scripted (emptyPages total : Nat → FetchResult α))
      { Skip := none, Limit := none } n 0 = none := by
  have hd : loopDecision { Skip := none, Limit := none } ((([] : List α).length : Nat) : Int)
      (some total) = Decision.again := by
    rw [loopDecision_unbounded, if_neg]
    simp only [List.length_nil, Nat.cast_zero]
    omega
  exact ⟨hd, collectLoop_stalls (some total) [] (fun _ => rfl) hd n 0 (some 0)⟩

/-- Witness of C15: the total count 3 and 50 fetches. -/
theorem collectAllProviders_never_returns_witness :
    loopDecision { Skip := none, Limit := none } ((([] : List Nat).length : Nat) : Int)
      (some 3) = Decision.again ∧
    collectAllProviders (scripted (emptyPages 3 : Nat → FetchResult Nat))
      { Skip := none, Limit := none } 50 0 = none :=
  collectAllProviders_never_returns 3 (by decide) 50

end SccSiProviders

/-! # The name rule of Activity Tracker routes: properties -/

namespace AtrackerRoute

/-- C16, the rule at its failing inputs: the names `a!b` and `#+,` pass the
rule of the validator, because the range from the space to the full stop in
the pattern holds the characters `!`, `#`, `+` and `,`, none of which the
description of the attribute allows. -/
theorem validateName_accepts_other_special_characters :
    validateName "a!b" = true ∧ validateName "#+," = true ∧
    "a!b#+,".data.filter (fun c => !allowedByDescription c) = ['!', '#', '+', ','] := by
  decide

end AtrackerRoute

/-! # Instance actions: properties -/

namespace InstanceAction

/-- The request of the create callback carries `Force = true` whenever
`force_action` is true. -/
theorem create_carries_force (d d1 : ResourceData) (vpcClient : Except String Unit)
    (getInstance : String → Except ServiceFailure Instance)
    (request : CreateInstanceActionOptions)
    (h : resourceIBMISInstanceActionCreate d vpcClient getInstance
      = Progress.submitted d1 request)
    (hforce : d.forceAction = true) : request.Force = some true := by
  unfold resourceIBMISInstanceActionCreate at h
  cases vpcClient with
  | error err => simp at h
  | ok u =>
    simp only at h
    split at h
    · simp at h
    · split at h
      · simp at h
      · simp at h
      · simp only [hforce, getOkBool, if_true, Progress.submitted.injEq] at h
        rw [← h.2]

/-- The request of the update callback never carries `Force`. -/
theorem update_never_carries_force (d d1 : ResourceData) (vpcClient : Except String Unit)
    (getInstance : String → Except ServiceFailure Instance)
    (request : CreateInstanceActionOptions)
    (h : resourceIBMISInstanceActionUpdate d vpcClient getInstance
      = Progress.submitted d1 request) : request.Force = none := by
  unfold resourceIBMISInstanceActionUpdate at h
  cases vpcClient with
  | error err => simp at h
  | ok u =>
    simp only at h
    split at h
    · simp at h
    · split at h
      · simp at h
      · simp at h
      · simp only [Progress.submitted.injEq] at h
        rw [← h.2]

/-- C17, the callbacks at the failing input: a stop of a running instance with
`force_action = true`.  The create callback submits the request with
`Force = true`; the update callback submits it without `Force`. -/
theorem update_omits_force :
    resourceIBMISInstanceActionCreate forcedStop (Except.ok ())
        (fun _ => Except.ok { Status := some "running" }) =
      Progress.submitted forcedStop
        { InstanceID := "i-1", Type_ := "stop", Force := some true } ∧
    resourceIBMISInstanceActionUpdate forcedStop (Except.ok ())
        (fun _ => Except.ok { Status := some "running" }) =
      Progress.submitted forcedStop
        { InstanceID := "i-1", Type_ := "stop", Force := none } := by
  decide

/-- The state tests in the terms of the specification, for an instance with a
status. -/
theorem checkInstanceState_eq (actiontype status : String) :
    (specActionRefused actiontype status = true →
      ∃ err, checkInstanceState actiontype { Status := some status }
        = StateCheck.failed err) ∧
    (specActionRefused actiontype status = false →
      checkInstanceState actiontype { Status := some status } = StateCheck.passed) := by
  by_cases h1 : actiontype = "stop"
  · subst h1
    by_cases hs : status = "running" <;>
      simp [specActionRefused, checkInstanceState, statusDiffers, isInstanceStatusRunning,
        isInstanceActionStatusStopped, hs]
  · by_cases h2 : actiontype = "reboot"
    · subst h2
      by_cases hs : status = "running" <;>
        simp [specActionRefused, checkInstanceState, statusDiffers, isInstanceStatusRunning,
          isInstanceActionStatusStopped, hs]
    · by_cases h3 : actiontype = "start"
      · subst h3
        by_cases hs : status = "stopped" <;>
          simp [specActionRefused, checkInstanceState, statusDiffers,
            isInstanceStatusRunning, isInstanceActionStatusStopped, hs]
      · simp [specActionRefused, checkInstanceState, statusDiffers, isInstanceStatusRunning,
          isInstanceActionStatusStopped, h1, h2, h3]

theorem getOkString_getD (value : String) :
    (match getOkString value with
      | some insId => insId
      | none => "") = value := by
  unfold getOkString
  split_ifs with h
  · exact h.symm
  · rfl

/-- C18 (state precondition): for every resource data and every status of a
successfully fetched instance, when the action is stop or reboot and the status
is not running, or the action is start and the status is not stopped, create
and update return an error before any action request and with the action
attribute reset; in every other case create submits the request with the
instance ID and the action type, and update does so with the resource ID. -/
theorem instance_action_state_precondition (d : ResourceData) (status : String) :
    (specActionRefused (d.action.getD "") status = true →
      (∃ err, resourceIBMISInstanceActionCreate d (Except.ok ())
          (fun _ => Except.ok { Status := some status })
        = Progress.returnedError { d with action := none } err) ∧
      (∃ err, resourceIBMISInstanceActionUpdate d (Except.ok ())
          (fun _ => Except.ok { Status := some status })
        = Progress.returnedError { d with action := none } err)) ∧
    (specActionRefused (d.action.getD "") status = false →
      resourceIBMISInstanceActionCreate d (Except.ok ())
          (fun _ => Except.ok { Status := some status })
        = Progress.submitted d
            { InstanceID := d.instanceID, Type_ := d.action.getD "",
              Force := getOkBool d.forceAction } ∧
      resourceIBMISInstanceActionUpdate d (Except.ok ())
          (fun _ => Except.ok { Status := some status })
        = Progress.submitted d
            { InstanceID := d.id, Type_ := d.action.getD "", Force := none }) := by
  obtain ⟨hrefused, hpassed⟩ := checkInstanceState_eq (d.action.getD "") status
  constructor
  · intro h
    obtain ⟨err, herr⟩ := hrefused h
    exact ⟨⟨err, by simp [resourceIBMISInstanceActionCreate, herr]⟩,
      ⟨err, by simp [resourceIBMISInstanceActionUpdate, herr]⟩⟩
  · intro h
    have hp := hpassed h
    constructor
    · simp only [resourceIBMISInstanceActionCreate, hp, getOkString_getD]
      cases hf : getOkBool d.forceAction <;> rfl
    · simp [resourceIBMISInstanceActionUpdate, hp]

/-- Witness of C18: a start of a running instance is refused by the create
callback, with the action attribute reset. -/
theorem instance_action_state_precondition_witness :
    specActionRefused "start" "running" = true ∧
    ∃ err, resourceIBMISInstanceActionCreate
        { id := "", instanceID := "i-1", action := some "start", forceAction := false }
        (Except.ok ()) (fun _ => Except.ok { Status := some "running" })
      = Progress.returnedError
          { id := "", instanceID := "i-1", action := none, forceAction := false } err :=
  ⟨by decide,
   ((instance_action_state_precondition
      { id := "", instanceID := "i-1", action := some "start", forceAction := false }
      "running").1 (by decide)).1⟩

end InstanceAction

/-! # AppID applications: properties -/

namespace AppIDApplication

theorem splitChars_ne_nil (sep : Char) (l : List Char) : splitChars sep l ≠ [] := by
  cases l with
  | nil => simp [splitChars]
  | cons c cs =>
    unfold splitChars
    split_ifs
    · simp
    · split <;> simp

theorem splitChars_cons (sep c : Char) (cs : List Char) :
    splitChars sep (c :: cs) =
      if c = sep then [] :: splitChars sep cs
      else
        match splitChars sep cs with
        | [] => [[c]]
        | part :: parts => (c :: part) :: parts := by
  rw [splitChars]

/-- Before the first separator the text comes back whole as the first piece. -/
theorem splitChars_append_sep (sep : Char) (a b : List Char) (h : sep ∉ a) :
    splitChars sep (a ++ sep :: b) = a :: splitChars sep b := by
  induction a with
  | nil => simp [splitChars]
  | cons c a ih =>
    have hc : c ≠ sep := fun hc => h (by simp [hc])
    have ha : sep ∉ a := fun ha => h (by simp [ha])
    rw [List.cons_append, splitChars_cons, if_neg hc, ih ha]

theorem splitChars_of_not_mem (sep : Char) (l : List Char) (h : sep ∉ l) :
    splitChars sep l = [l] := by
  induction l with
  | nil => rfl
  | cons c l ih =>
    have hc : c ≠ sep := fun hc => h (by simp [hc])
    have hl : sep ∉ l := fun hl => h (by simp [hl])
    rw [splitChars_cons, if_neg hc, ih hl]

/-- The first piece holds no separator. -/
theorem splitChars_head_not_mem (sep : Char) :
    ∀ (l p : List Char) (ps : List (List Char)), splitChars sep l = p :: ps → sep ∉ p := by
  intro l
  induction l with
  | nil =>
    intro p ps h
    simp only [splitChars, List.cons.injEq] at h
    rw [← h.1]
    simp
  | cons c l ih =>
    intro p ps h
    unfold splitChars at h
    split_ifs at h with hc
    · simp only [List.cons.injEq] at h
      rw [← h.1]
      simp
    · split at h
      · simp only [List.cons.injEq] at h
        rw [← h.1]
        simpa using fun hsep => hc hsep.symm
      · rename_i part parts hsplit
        simp only [List.cons.injEq] at h
        rw [← h.1]
        have := ih part parts hsplit
        simp only [List.mem_cons, not_or]
        exact ⟨fun hsep => hc hsep.symm, this⟩

/-- A text with a separator splits into at least two pieces. -/
theorem splitChars_two_of_mem (sep : Char) (l : List Char) (h : sep ∈ l) :
    ∃ p q rest, splitChars sep l = p :: q :: rest := by
  obtain ⟨a, b, hab, ha⟩ : ∃ a b, l = a ++ sep :: b ∧ sep ∉ a := by
    induction l with
    | nil => simp at h
    | cons c l ih =>
      by_cases hc : c = sep
      · exact ⟨[], l, by simp [hc], by simp⟩
      · have hl : sep ∈ l := by
          rcases List.mem_cons.mp h with h1 | h1
          · exact absurd h1.symm hc
          · exact h1
        obtain ⟨a, b, hab, ha⟩ := ih hl
        refine ⟨c :: a, b, by simp [hab], ?_⟩
        simp only [List.mem_cons, not_or]
        exact ⟨fun hsep => hc hsep.symm, ha⟩
  rw [hab, splitChars_append_sep sep a b ha]
  cases hb : splitChars sep b with
  | nil => exact absurd hb (splitChars_ne_nil sep b)
  | cons q rest => exact ⟨a, q, rest, rfl⟩

theorem applicationID_data (tenantID clientID : String) :
    (applicationID tenantID clientID).data = tenantID.data ++ '/' :: clientID.data := by
  simp [applicationID, String.data_append]

/-- With an ID of a single piece the read callback returns the error of line
111 and calls nothing. -/
theorem read_of_one_part (d : ResourceData)
    (getApplication : GetApplicationOptions → Except ServiceFailure Application)
    (a : String) (h : stringsSplit d.id '/' = [a]) :
    resourceIBMAppIDApplicationRead d (Except.ok ()) getApplication =
      { d := d, err := some (incorrectIDError d.id), request := none } := by
  simp [resourceIBMAppIDApplicationRead, h]

/-- With an ID of two pieces or more the read callback calls the remote side
with the first two pieces. -/
theorem read_of_two_parts (d : ResourceData)
    (getApplication : GetApplicationOptions → Except ServiceFailure Application)
    (a b : String) (rest : List String) (h : stringsSplit d.id '/' = a :: b :: rest) :
    (resourceIBMAppIDApplicationRead d (Except.ok ()) getApplication).request =
      some { TenantID := a, ClientID := b } := by
  simp only [resourceIBMAppIDApplicationRead, h]
  simp only [List.length_cons, List.getElem_cons_zero, List.getElem_cons_succ]
  rw [dif_neg (by omega)]
  split
  · split <;> rfl
  · rfl

/-- C19 (composite ID round trip): for all strings `tenantID` and `clientID`,
the read callback, given the ID the create callback forms from them, raises no
ID error and calls the remote side; the pair it calls it with is exactly
`(tenantID, clientID)` if and only if neither of the two contains the
separator `/`. -/
theorem applicationID_round_trip (d : ResourceData)
    (getApplication : GetApplicationOptions → Except ServiceFailure Application)
    (tenantID clientID : String) :
    (∃ request,
      (resourceIBMAppIDApplicationRead { d with id := applicationID tenantID clientID }
        (Except.ok ()) getApplication).request = some request) ∧
    ((resourceIBMAppIDApplicationRead { d with id := applicationID tenantID clientID }
        (Except.ok ()) getApplication).request
        = some { TenantID := tenantID, ClientID := clientID } ↔
      '/' ∉ tenantID.data ∧ '/' ∉ clientID.data) := by
  by_cases ht : '/' ∈ tenantID.data
  · have hmem : '/' ∈ (applicationID tenantID clientID).data := by
      rw [applicationID_data]
      simp
    obtain ⟨p, q, rest, hsplit⟩ := splitChars_two_of_mem '/' _ hmem
    have hparts : stringsSplit ({ d with id := applicationID tenantID clientID } :
        ResourceData).id '/' = String.mk p :: String.mk q :: rest.map String.mk := by
      simp [stringsSplit, hsplit]
    rw [read_of_two_parts _ getApplication _ _ _ hparts]
    refine ⟨⟨_, rfl⟩, ?_⟩
    constructor
    · intro h
      exfalso
      simp only [Option.some.injEq, GetApplicationOptions.mk.injEq] at h
      have hp : p = tenantID.data := by rw [← h.1]
      exact splitChars_head_not_mem '/' _ p _ hsplit (hp ▸ ht)
    · intro h
      exact absurd ht h.1
  · have hsplit : splitChars '/' (applicationID tenantID clientID).data
        = tenantID.data :: splitChars '/' clientID.data := by
      rw [applicationID_data, splitChars_append_sep '/' _ _ ht]
    cases hc : splitChars '/' clientID.data with
    | nil => exact absurd hc (splitChars_ne_nil _ _)
    | cons q rest =>
      have hparts : stringsSplit ({ d with id := applicationID tenantID clientID } :
          ResourceData).id '/' = tenantID :: String.mk q :: rest.map String.mk := by
        simp [stringsSplit, hsplit, hc]
      rw [read_of_two_parts _ getApplication _ _ _ hparts]
      refine ⟨⟨_, rfl⟩, ?_⟩
      constructor
      · intro h
        simp only [Option.some.injEq, GetApplicationOptions.mk.injEq, true_and] at h
        have hq : q = clientID.data := by rw [← h]
        exact ⟨ht, hq ▸ splitChars_head_not_mem '/' _ q _ hc⟩
      · intro h
        rw [splitChars_of_not_mem '/' _ h.2] at hc
        simp only [List.cons.injEq] at hc
        rw [← hc.1]

/-- C20 (malformed ID): the read callback returns the error
`Incorrect ID <id>: ID should be a combination of tenantID/clientID` of line
111 without calling the remote side if and only if the resource ID contains no
`/`; for every ID with a `/` it calls the remote side with the first two
pieces of the ID, whatever pieces follow. -/
theorem read_rejects_malformed_id (d : ResourceData)
    (getApplication : GetApplicationOptions → Except ServiceFailure Application) :
    (((resourceIBMAppIDApplicationRead d (Except.ok ()) getApplication).request = none ∧
        (resourceIBMAppIDApplicationRead d (Except.ok ()) getApplication).err
          = some ("Incorrect ID " ++ d.id ++
              ": ID should be a combination of tenantID/clientID")) ↔
      '/' ∉ d.id.data) ∧
    ('/' ∈ d.id.data → ∃ first second rest,
      stringsSplit d.id '/' = first :: second :: rest ∧
      (resourceIBMAppIDApplicationRead d (Except.ok ()) getApplication).request
        = some { TenantID := first, ClientID := second }) := by
  have htwo : '/' ∈ d.id.data → ∃ first second rest,
      stringsSplit d.id '/' = first :: second :: rest ∧
      (resourceIBMAppIDApplicationRead d (Except.ok ()) getApplication).request
        = some { TenantID := first, ClientID := second } := by
    intro hmem
    obtain ⟨p, q, rest, hsplit⟩ := splitChars_two_of_mem '/' _ hmem
    have hparts : stringsSplit d.id '/' = String.mk p :: String.mk q :: rest.map String.mk := by
      simp [stringsSplit, hsplit]
    exact ⟨_, _, _, hparts, read_of_two_parts d getApplication _ _ _ hparts⟩
  refine ⟨⟨?_, ?_⟩, htwo⟩
  · rintro ⟨hreq, -⟩ hmem
    obtain ⟨first, second, rest, -, h⟩ := htwo hmem
    rw [h] at hreq
    exact absurd hreq (by simp)
  · intro hmem
    have hparts : stringsSplit d.id '/' = [d.id] := by
      simp [stringsSplit, splitChars_of_not_mem '/' _ hmem]
    rw [read_of_one_part d getApplication _ hparts]
    exact ⟨rfl, rfl⟩

/-- Witness of C19: the tenant `tenant-1` and the client `client-1`. -/
theorem applicationID_round_trip_witness :
    ('/' ∉ "tenant-1".data ∧ '/' ∉ "client-1".data) ∧
    (resourceIBMAppIDApplicationRead
        { blank "" with id := applicationID "tenant-1" "client-1" }
        (Except.ok ()) notFound).request
      = some { TenantID := "tenant-1", ClientID := "client-1" } :=
  ⟨by decide,
   (applicationID_round_trip (blank "") notFound "tenant-1" "client-1").2.mpr (by decide)⟩

/-- Witness of C20: the ID `tenant-1` holds no `/`; the read callback returns
the error with that ID in its text and calls nothing. -/
theorem read_rejects_malformed_id_witness :
    '/' ∉ (blank "tenant-1").id.data ∧
    (resourceIBMAppIDApplicationRead (blank "tenant-1") (Except.ok ()) notFound).request
        = none ∧
    (resourceIBMAppIDApplicationRead (blank "tenant-1") (Except.ok ()) notFound).err
        = some "Incorrect ID tenant-1: ID should be a combination of tenantID/clientID" :=
  ⟨by decide, (read_rejects_malformed_id (blank "tenant-1") notFound).1.mpr (by decide)⟩

end AppIDApplication

/-! # AppID roles: properties -/

namespace AppIDRole

/-- For an ID without `/` the delete and the update callback index the second
part of a list of one part. -/
theorem delete_update_index_out_of_range (id : String) (h : '/' ∉ id.data) :
    resourceIBMAppIDRoleDelete (Except.ok ()) id = Progress.indexOutOfRange ∧
    resourceIBMAppIDRoleUpdate (Except.ok ()) id = Progress.indexOutOfRange := by
  have hparts : AppIDApplication.stringsSplit id '/' = [id] := by
    simp [AppIDApplication.stringsSplit, AppIDApplication.splitChars_of_not_mem '/' _ h]
  simp [resourceIBMAppIDRoleDelete, resourceIBMAppIDRoleUpdate, hparts]

/-- For an ID without `/` the read callback returns the error of line 111. -/
theorem read_incorrect_id (id : String) (h : '/' ∉ id.data) :
    resourceIBMAppIDRoleRead (Except.ok ()) id
      = Progress.returnedError (incorrectIDError id) := by
  have hparts : AppIDApplication.stringsSplit id '/' = [id] := by
    simp [AppIDApplication.stringsSplit, AppIDApplication.splitChars_of_not_mem '/' _ h]
  simp [resourceIBMAppIDRoleRead, hparts]

/-- C23, the callbacks at the failing input: for the ID `tenant-1`, which
splits into one part, the delete and the update callback run into an index
out of range at the second part and never reach their length test; the read
callback, which tests the length first, returns the error. -/
theorem role_delete_update_panic_on_short_id :
    resourceIBMAppIDRoleDelete (Except.ok ()) "tenant-1" = Progress.indexOutOfRange ∧
    resourceIBMAppIDRoleUpdate (Except.ok ()) "tenant-1" = Progress.indexOutOfRange ∧
    resourceIBMAppIDRoleRead (Except.ok ()) "tenant-1" =
      Progress.returnedError
        "Incorrect ID tenant-1: ID should be a combination of tenantID/roleID" := by
  decide

end AppIDRole

/-! # Cloud Directory templates: properties -/

namespace AppIDCloudDirectoryTemplate

theorem decodeSextet_encodeSextet : ∀ n, n < 64 → decodeSextet (encodeSextet n) = some n := by
  decide

theorem encodeSextet_ne_pad : ∀ n, n < 64 → encodeSextet n ≠ '=' := by
  decide

theorem uint8_ofNat_toNat (a : UInt8) (n : Nat) (h : n = a.toNat) : UInt8.ofNat n = a := by
  subst h
  cases a with
  | mk v =>
    apply UInt8.ext
    simp [UInt8.ofNat, UInt8.toNat, Fin.ofNat]

theorem uint8_toNat_lt (a : UInt8) : a.toNat < 256 := a.val.isLt

/-- Reading back the Base64 text of a sequence of bytes gives the bytes. -/
theorem decodeChars_encodeBytes : ∀ bs : List UInt8, decodeChars (encodeBytes bs) = some bs := by
  intro bs
  induction bs using encodeBytes.induct with
  | case1 a b c rest ih =>
    have ha := uint8_toNat_lt a
    have hb := uint8_toNat_lt b
    have hc := uint8_toNat_lt c
    simp only [encodeBytes, decodeChars]
    rw [decodeSextet_encodeSextet _ (by omega), decodeSextet_encodeSextet _ (by omega),
      decodeSextet_encodeSextet _ (by omega), decodeSextet_encodeSextet _ (by omega), ih]
    simp only [if_neg (encodeSextet_ne_pad _ (show c.toNat % 64 < 64 by omega))]
    rw [uint8_ofNat_toNat a _ (by omega), uint8_ofNat_toNat b _ (by omega),
      uint8_ofNat_toNat c _ (by omega)]
  | case2 a b =>
    have ha := uint8_toNat_lt a
    have hb := uint8_toNat_lt b
    simp only [encodeBytes, decodeChars]
    rw [decodeSextet_encodeSextet _ (by omega), decodeSextet_encodeSextet _ (by omega)]
    simp only [if_true, ne_eq, not_true_eq_false, if_false,
      if_neg (encodeSextet_ne_pad _ (show b.toNat % 16 * 4 < 64 by omega))]
    rw [decodeSextet_encodeSextet _ (by omega)]
    simp only
    rw [if_pos (by omega), uint8_ofNat_toNat a _ (by omega), uint8_ofNat_toNat b _ (by omega)]
  | case3 a =>
    have ha := uint8_toNat_lt a
    simp only [encodeBytes, decodeChars]
    rw [decodeSextet_encodeSextet _ (by omega), decodeSextet_encodeSextet _ (by omega)]
    simp only [if_true, ne_eq, not_true_eq_false, if_false]
    rw [if_pos (by omega), uint8_ofNat_toNat a _ (by omega)]
  | case4 => rfl

theorem DecodeString_EncodeToString (src : List UInt8) :
    DecodeString (EncodeToString src) = some src :=
  decodeChars_encodeBytes src

/-- C21 (the HTML body goes out in Base64 only): for every resource data, and
so for every `html_body`, create and update reach the remote call with the same
request; its `HTMLBody` is unset; its `Base64EncodedHTMLBody` is unset when
`html_body` is empty or absent and is otherwise the standard padded Base64 of
the UTF-8 bytes of `html_body`, and decoding that text gives those bytes back. -/
theorem template_request_html_body (d : ResourceData) :
    ∃ input,
      resourceIBMAppIDCloudDirectoryTemplateCreate d (Except.ok ())
        = Progress.requested input ∧
      resourceIBMAppIDCloudDirectoryTemplateUpdate d (Except.ok ())
        = Progress.requested input ∧
      input.HTMLBody = none ∧
      input.Base64EncodedHTMLBody =
        (if d.html_body = "" then none
          else some (EncodeToString (bytesOf d.html_body))) ∧
      DecodeString (EncodeToString (bytesOf d.html_body)) = some (bytesOf d.html_body) := by
  refine ⟨_, rfl, rfl, ?_, ?_, DecodeString_EncodeToString _⟩
  · cases h1 : getOkString d.html_body <;> cases h2 : getOkString d.plain_text_body <;>
      simp [h1, h2]
  · by_cases h : d.html_body = ""
    · cases h2 : getOkString d.plain_text_body <;> simp [getOkString, h, h2]
    · cases h2 : getOkString d.plain_text_body <;> simp [getOkString, h, h2]

/-- Witness of C21: the body `<b>Hi</b>` goes out as `PGI+SGk8L2I+`. -/
theorem template_request_html_body_witness :
    resourceIBMAppIDCloudDirectoryTemplateCreate welcomeMail (Except.ok ()) =
      Progress.requested
        { TenantID := "tenant-1", TemplateName := "WELCOME", Language := "en",
          Subject := "Welcome", HTMLBody := none,
          Base64EncodedHTMLBody := some "PGI+SGk8L2I+", PlainTextBody := none } ∧
    ∃ input,
      resourceIBMAppIDCloudDirectoryTemplateCreate welcomeMail (Except.ok ())
        = Progress.requested input ∧
      resourceIBMAppIDCloudDirectoryTemplateUpdate welcomeMail (Except.ok ())
        = Progress.requested input ∧
      input.HTMLBody = none ∧
      input.Base64EncodedHTMLBody =
        (if welcomeMail.html_body = "" then none
          else some (EncodeToString (bytesOf welcomeMail.html_body))) ∧
      DecodeString (EncodeToString (bytesOf welcomeMail.html_body))
        = some (bytesOf welcomeMail.html_body) :=
  ⟨by decide, template_request_html_body welcomeMail⟩

end AppIDCloudDirectoryTemplate

/-! # AppID applications: a missing application -/

namespace AppIDApplication

/-- C22 (a missing application is removed from state): the ID has two parts or
more and `GetApplication` fails.  With a response of status 404 the read
callback sets the resource ID to the empty string, leaves the attributes as
they are and returns no error; with any other status, or with no response, it
returns an error and leaves the ID and the attributes as they are. -/
theorem read_removes_missing_application (d : ResourceData)
    (getApplication : GetApplicationOptions → Except ServiceFailure Application)
    (first second : String) (rest : List String) (e : ServiceFailure)
    (hparts : stringsSplit d.id '/' = first :: second :: rest)
    (hfail : getApplication { TenantID := first, ClientID := second } = Except.error e) :
    (e.statusCode = some 404 →
      resourceIBMAppIDApplicationRead d (Except.ok ()) getApplication =
        { d := { d with id := "" }, err := none,
          request := some { TenantID := first, ClientID := second } }) ∧
    (e.statusCode ≠ some 404 →
      resourceIBMAppIDApplicationRead d (Except.ok ()) getApplication =
        { d := d,
          err := some ("Error getting AppID application: " ++ e.err ++ "\n" ++ e.response),
          request := some { TenantID := first, ClientID := second } }) := by
  have hread : resourceIBMAppIDApplicationRead d (Except.ok ()) getApplication =
      if e.statusCode = some 404 then
        { d := { d with id := "" }, err := none,
          request := some { TenantID := first, ClientID := second } }
      else
        { d := d,
          err := some ("Error getting AppID application: " ++ e.err ++ "\n" ++ e.response),
          request := some { TenantID := first, ClientID := second } } := by
    simp only [resourceIBMAppIDApplicationRead, hparts]
    simp only [List.length_cons, List.getElem_cons_zero, List.getElem_cons_succ]
    rw [dif_neg (by omega), hfail]
  exact ⟨fun h => by rw [hread, if_pos h], fun h => by rw [hread, if_neg h]⟩

/-- Witness of C22: the remote side knows no application `client-1`; the ID
is emptied and no error is returned. -/
theorem read_removes_missing_application_witness :
    stringsSplit (blank "tenant-1/client-1").id '/' = ["tenant-1", "client-1"] ∧
    resourceIBMAppIDApplicationRead (blank "tenant-1/client-1") (Except.ok ()) notFound =
      { d := { blank "tenant-1/client-1" with id := "" }, err := none,
        request := some { TenantID := "tenant-1", ClientID := "client-1" } } :=
  ⟨by decide,
   (read_removes_missing_application (blank "tenant-1/client-1") notFound
      "tenant-1" "client-1" []
      { err := "Not Found", statusCode := some 404, response := "404" }
      (by decide) rfl).1 rfl⟩

end AppIDApplication

/-! # Locations of a private DNS custom resolver: properties -/

namespace PrivateDNSLocation

/-- When the call that disables the custom resolver hands back no result, the
delete callback returns the error of line 184 and makes no further call. -/
theorem delete_stops_without_result (d : ResourceData)
    (convertTfToCisThreeVar : String → Converted) (reply : Nat → Reply)
    (hcr : d.crEnabled = some true) (hresult : (reply 0).result = none) :
    resourceIBMPrivateDNSLocationDelete d (Except.ok ()) convertTfToCisThreeVar reply =
      { outcome := Outcome.returned d
          (some ("Error Disable and Update the custom resolver " ++
            errorString (reply 0).err ++ ":" ++ (reply 0).response)),
        calls := [Call.updateCustomResolver (convertTfToCisThreeVar d.id).instanceID
          (convertTfToCisThreeVar d.id).resolverID false] } := by
  simp [resourceIBMPrivateDNSLocationDelete, hcr, hresult]

/-- When the ID converts without error and the call that disables the custom
resolver hands back a result, the delete callback goes on to disable the
location, whatever error the call handed back. -/
theorem delete_goes_on_with_result (d : ResourceData)
    (convertTfToCisThreeVar : String → Converted) (reply : Nat → Reply) (result : Result)
    (hcr : d.crEnabled = some true) (hconv : (convertTfToCisThreeVar d.id).err = none)
    (hresult : (reply 0).result = some result) :
    resourceIBMPrivateDNSLocationDelete d (Except.ok ()) convertTfToCisThreeVar reply =
      deleteFromDisableLocation d (convertTfToCisThreeVar d.id) reply
        [Call.updateCustomResolver (convertTfToCisThreeVar d.id).instanceID
          (convertTfToCisThreeVar d.id).resolverID false] := by
  simp [resourceIBMPrivateDNSLocationDelete, hcr, hconv, hresult]

/-- C24, the delete callback at the failing input: `cr_enabled` is true, the
ID converts without error, and the call that disables the custom resolver
hands back the error `internal error` together with a result that is not nil.
The callback does not return that error: it goes on to disable the location
and to get the custom resolver, empties the ID and returns nil. -/
theorem delete_ignores_disable_error :
    resourceIBMPrivateDNSLocationDelete enabledLocation (Except.ok ()) convertedLocation
        firstCallErrorWithResult =
      { outcome := Outcome.returned { enabledLocation with id := "" } none,
        calls :=
          [Call.updateCustomResolver "inst-1" "res-1" false,
            Call.updateCustomResolverLocation "inst-1" "res-1" "loc-1" false,
            Call.getCustomResolver "inst-1" "res-1"] } ∧
    (firstCallErrorWithResult 0).err = some "internal error" := by
  decide

/-- C25, counterexample: `cr_enabled` and `enabled` are both true, the call
that disables the custom resolver goes well and the add call fails.  The create
callback returns the error of line 114 after these two calls; the custom
resolver is not enabled again although both flags are true. -/
theorem create_leaves_resolver_disabled_when_add_fails :
    resourceIBMPrivateDNSLocationCreate enabledLocation (Except.ok ()) joinThree
        secondCallFails =
      { outcome := Outcome.returned enabledLocation
          (some "Error creating the custom resolver location internal error:500"),
        calls := [disableCall enabledLocation, addCall enabledLocation] } ∧
    enableCall enabledLocation ∉
      (resourceIBMPrivateDNSLocationCreate enabledLocation (Except.ok ()) joinThree
        secondCallFails).calls ∧
    enabledLocation.crEnabled = some true ∧ enabledLocation.enabled = some true := by
  decide

/-- The remote calls of a run of the create callback in which `cr_enabled`
exists: the disable call, then, if it went well, the add call, then, if that
went well with a location ID and both flags are true, the health wait, then,
if that went well, the enable call. -/
theorem create_calls (d : ResourceData)
    (convertCisToTfThreeVar : String → String → String → String) (reply : Nat → Reply)
    (cr : Bool) (hcr : d.crEnabled = some cr) :
    (resourceIBMPrivateDNSLocationCreate d (Except.ok ()) convertCisToTfThreeVar reply).calls =
      disableCall d ::
        (if failed (reply 0) then []
          else addCall d ::
            (if !failed (reply 1) && ((reply 1).result.bind (fun r => r.ID)).isSome && cr &&
                d.enabled.getD false
              then Call.waitForPDNSCustomResolverHealthy ::
                (if (reply 2).err.isNone then [enableCall d] else [])
              else [])) := by
  simp only [resourceIBMPrivateDNSLocationCreate, hcr]
  by_cases h0 : failed (reply 0) = true
  · simp [h0, disableCall]
  · simp only [h0, Bool.false_eq_true, if_false]
    simp only [createFromAdd, List.length_singleton, List.length_append, List.length_cons,
      List.length_nil]
    by_cases h1 : failed (reply 1) = true
    · simp [h1, disableCall, addCall]
    · simp only [h1, Bool.false_eq_true, if_false]
      cases hid : (reply 1).result.bind (fun r => r.ID) with
      | none => simp [disableCall, addCall]
      | some locationID =>
        simp only [hcr]
        cases cr with
        | false => simp [disableCall, addCall]
        | true =>
          cases hen : d.enabled.getD false with
          | false => simp [disableCall, addCall]
          | true =>
            cases hw : (reply 2).err with
            | some err => simp [disableCall, addCall, hw]
            | none =>
              by_cases h3 : failed (reply 3) = true <;>
                simp [disableCall, addCall, enableCall, hw, h3]

/-- The text `%s` prints for an error that may be nil, spelled out. -/
theorem errorString_eq (err : Option String) : errorString err = err.getD "%!s(<nil>)" := by
  cases err <;> rfl

/-- The create callback when the disable call fails: it returns the error of
line 109 after that single call. -/
theorem create_disable_fails (d : ResourceData)
    (convertCisToTfThreeVar : String → String → String → String) (reply : Nat → Reply)
    (cr : Bool) (hcr : d.crEnabled = some cr) (h0 : failed (reply 0) = true) :
    resourceIBMPrivateDNSLocationCreate d (Except.ok ()) convertCisToTfThreeVar reply =
      { outcome := Outcome.returned d
          (some ("Error updating the custom resolver with cr_enable false " ++
            (reply 0).err.getD "%!s(<nil>)" ++ ":" ++ (reply 0).response)),
        calls := [disableCall d] } := by
  simp [resourceIBMPrivateDNSLocationCreate, hcr, h0, disableCall, errorString_eq]

/-- The create callback when the add call fails: it returns the error of line
114 after the disable call and the add call. -/
theorem create_add_fails (d : ResourceData)
    (convertCisToTfThreeVar : String → String → String → String) (reply : Nat → Reply)
    (cr : Bool) (hcr : d.crEnabled = some cr) (h0 : failed (reply 0) = false)
    (h1 : failed (reply 1) = true) :
    resourceIBMPrivateDNSLocationCreate d (Except.ok ()) convertCisToTfThreeVar reply =
      { outcome := Outcome.returned d
          (some ("Error creating the custom resolver location " ++
            (reply 1).err.getD "%!s(<nil>)" ++ ":" ++ (reply 1).response)),
        calls := [disableCall d, addCall d] } := by
  simp [resourceIBMPrivateDNSLocationCreate, createFromAdd, hcr, h0, h1, disableCall, addCall,
    errorString_eq]

/-- The create callback when the add call hands back a result without an ID:
the dereference of line 116 fails. -/
theorem create_add_without_id (d : ResourceData)
    (convertCisToTfThreeVar : String → String → String → String) (reply : Nat → Reply)
    (cr : Bool) (hcr : d.crEnabled = some cr) (h0 : failed (reply 0) = false)
    (h1 : failed (reply 1) = false)
    (hid : (reply 1).result.bind (fun r => r.ID) = none) :
    resourceIBMPrivateDNSLocationCreate d (Except.ok ()) convertCisToTfThreeVar reply =
      { outcome := Outcome.nilDereference, calls := [disableCall d, addCall d] } := by
  simp [resourceIBMPrivateDNSLocationCreate, createFromAdd, hcr, h0, h1, hid, disableCall,
    addCall]

/-- The create callback when the two flags are not both true: after the add
call it sets the ID and returns nil. -/
theorem create_without_enable (d : ResourceData)
    (convertCisToTfThreeVar : String → String → String → String) (reply : Nat → Reply)
    (cr : Bool) (locationID : String) (hcr : d.crEnabled = some cr)
    (h0 : failed (reply 0) = false) (h1 : failed (reply 1) = false)
    (hid : (reply 1).result.bind (fun r => r.ID) = some locationID)
    (hflags : ¬ (cr = true ∧ d.enabled = some true)) :
    resourceIBMPrivateDNSLocationCreate d (Except.ok ()) convertCisToTfThreeVar reply =
      { outcome := Outcome.returned
          { d with id := convertCisToTfThreeVar locationID d.resolverID d.instanceID } none,
        calls := [disableCall d, addCall d] } := by
  cases cr <;> rcases hen : d.enabled with _ | _ | _ <;>
    simp_all [resourceIBMPrivateDNSLocationCreate, createFromAdd, disableCall, addCall]

/-- The create callback when the health wait fails: it returns the error of
the wait after the disable call, the add call and the wait. -/
theorem create_wait_fails (d : ResourceData)
    (convertCisToTfThreeVar : String → String → String → String) (reply : Nat → Reply)
    (locationID err : String) (hcr : d.crEnabled = some true)
    (hen : d.enabled = some true)
    (h0 : failed (reply 0) = false) (h1 : failed (reply 1) = false)
    (hid : (reply 1).result.bind (fun r => r.ID) = some locationID)
    (hw : (reply 2).err = some err) :
    resourceIBMPrivateDNSLocationCreate d (Except.ok ()) convertCisToTfThreeVar reply =
      { outcome := Outcome.returned
          { d with id := convertCisToTfThreeVar locationID d.resolverID d.instanceID }
          (some err),
        calls := [disableCall d, addCall d, Call.waitForPDNSCustomResolverHealthy] } := by
  simp [resourceIBMPrivateDNSLocationCreate, createFromAdd, hcr, hen, h0, h1, hid, hw,
    disableCall, addCall]

/-- The create callback when the health wait goes well: it makes the enable
call and returns the error of line 128 if that call fails, nil otherwise. -/
theorem create_enables (d : ResourceData)
    (convertCisToTfThreeVar : String → String → String → String) (reply : Nat → Reply)
    (locationID : String) (hcr : d.crEnabled = some true)
    (hen : d.enabled = some true)
    (h0 : failed (reply 0) = false) (h1 : failed (reply 1) = false)
    (hid : (reply 1).result.bind (fun r => r.ID) = some locationID)
    (hw : (reply 2).err = none) :
    resourceIBMPrivateDNSLocationCreate d (Except.ok ()) convertCisToTfThreeVar reply =
      { outcome := Outcome.returned
          { d with id := convertCisToTfThreeVar locationID d.resolverID d.instanceID }
          (if failed (reply 3) then
            some ("Error updating the custom resolver " ++ (reply 3).err.getD "%!s(<nil>)" ++
              ":" ++ (reply 3).response)
          else none),
        calls := [disableCall d, addCall d, Call.waitForPDNSCustomResolverHealthy,
          enableCall d] } := by
  by_cases h3 : failed (reply 3) = true <;>
    simp [resourceIBMPrivateDNSLocationCreate, createFromAdd, hcr, hen, h0, h1, hid, hw, h3,
      disableCall, addCall, enableCall, errorString_eq]

/-- C25, amended (create choreography): in every run of the create callback in
which `cr_enabled` exists, the first remote call disables the custom resolver;
if that call fails no other call is made, and so no add call, and the callback
returns the error of line 109; if it goes well the add call comes directly
after it.  The custom resolver is enabled again if and only if `cr_enabled` and
`enabled` are both true and the disable call, the add call (with a location
ID) and the health wait all went well; the calls of the run are then the
disable call, the add call, the health wait and the enable call, in this
order.  When the add call fails the callback returns the error of line 114
after the disable call and the add call; when the health wait fails it returns
the error of the wait after the disable call, the add call and the wait; in
both cases the custom resolver is not enabled again.  When the two flags are
not both true the callback returns nil after the add call. -/
theorem create_choreography (d : ResourceData)
    (convertCisToTfThreeVar : String → String → String → String) (reply : Nat → Reply)
    (cr : Bool) (hcr : d.crEnabled = some cr) :
    (resourceIBMPrivateDNSLocationCreate d (Except.ok ()) convertCisToTfThreeVar reply).calls.head?
      = some (disableCall d) ∧
    (failed (reply 0) = true →
      (resourceIBMPrivateDNSLocationCreate d (Except.ok ()) convertCisToTfThreeVar reply).calls
        = [disableCall d]) ∧
    (failed (reply 0) = false →
      (resourceIBMPrivateDNSLocationCreate d (Except.ok ()) convertCisToTfThreeVar reply).calls[1]?
        = some (addCall d)) ∧
    (enableCall d ∈
        (resourceIBMPrivateDNSLocationCreate d (Except.ok ()) convertCisToTfThreeVar reply).calls ↔
      cr = true ∧ d.enabled = some true ∧ failed (reply 0) = false ∧
        failed (reply 1) = false ∧
        (∃ locationID, (reply 1).result.bind (fun r => r.ID) = some locationID) ∧
        (reply 2).err = none) ∧
    (enableCall d ∈
        (resourceIBMPrivateDNSLocationCreate d (Except.ok ()) convertCisToTfThreeVar reply).calls →
      (resourceIBMPrivateDNSLocationCreate d (Except.ok ()) convertCisToTfThreeVar reply).calls
        = [disableCall d, addCall d, Call.waitForPDNSCustomResolverHealthy, enableCall d]) ∧
    (failed (reply 0) = true →
      resourceIBMPrivateDNSLocationCreate d (Except.ok ()) convertCisToTfThreeVar reply =
        { outcome := Outcome.returned d
            (some ("Error updating the custom resolver with cr_enable false " ++
              (reply 0).err.getD "%!s(<nil>)" ++ ":" ++ (reply 0).response)),
          calls := [disableCall d] }) ∧
    (failed (reply 0) = false → failed (reply 1) = true →
      resourceIBMPrivateDNSLocationCreate d (Except.ok ()) convertCisToTfThreeVar reply =
        { outcome := Outcome.returned d
            (some ("Error creating the custom resolver location " ++
              (reply 1).err.getD "%!s(<nil>)" ++ ":" ++ (reply 1).response)),
          calls := [disableCall d, addCall d] }) ∧
    (∀ locationID err, cr = true → d.enabled = some true → failed (reply 0) = false →
      failed (reply 1) = false →
      (reply 1).result.bind (fun r => r.ID) = some locationID →
      (reply 2).err = some err →
      resourceIBMPrivateDNSLocationCreate d (Except.ok ()) convertCisToTfThreeVar reply =
        { outcome := Outcome.returned
            { d with id := convertCisToTfThreeVar locationID d.resolverID d.instanceID }
            (some err),
          calls := [disableCall d, addCall d, Call.waitForPDNSCustomResolverHealthy] }) ∧
    (∀ locationID, cr = true → d.enabled = some true → failed (reply 0) = false →
      failed (reply 1) = false →
      (reply 1).result.bind (fun r => r.ID) = some locationID →
      (reply 2).err = none →
      resourceIBMPrivateDNSLocationCreate d (Except.ok ()) convertCisToTfThreeVar reply =
        { outcome := Outcome.returned
            { d with id := convertCisToTfThreeVar locationID d.resolverID d.instanceID }
            (if failed (reply 3) then
              some ("Error updating the custom resolver " ++
                (reply 3).err.getD "%!s(<nil>)" ++ ":" ++ (reply 3).response)
            else none),
          calls := [disableCall d, addCall d, Call.waitForPDNSCustomResolverHealthy,
            enableCall d] }) ∧
    (∀ locationID, failed (reply 0) = false → failed (reply 1) = false →
      (reply 1).result.bind (fun r => r.ID) = some locationID →
      ¬ (cr = true ∧ d.enabled = some true) →
      resourceIBMPrivateDNSLocationCreate d (Except.ok ()) convertCisToTfThreeVar reply =
        { outcome := Outcome.returned
            { d with id := convertCisToTfThreeVar locationID d.resolverID d.instanceID } none,
          calls := [disableCall d, addCall d] }) ∧
    (failed (reply 0) = false → failed (reply 1) = false →
      (reply 1).result.bind (fun r => r.ID) = none →
      resourceIBMPrivateDNSLocationCreate d (Except.ok ()) convertCisToTfThreeVar reply =
        { outcome := Outcome.nilDereference, calls := [disableCall d, addCall d] }) ∧
    (∀ r : Reply, failed r = true ↔ r.err ≠ none ∨ r.result = none) := by
  have hcalls :
      (resourceIBMPrivateDNSLocationCreate d (Except.ok ()) convertCisToTfThreeVar
          reply).calls.head? = some (disableCall d) ∧
      (failed (reply 0) = true →
        (resourceIBMPrivateDNSLocationCreate d (Except.ok ()) convertCisToTfThreeVar
          reply).calls = [disableCall d]) ∧
      (failed (reply 0) = false →
        (resourceIBMPrivateDNSLocationCreate d (Except.ok ()) convertCisToTfThreeVar
          reply).calls[1]? = some (addCall d)) ∧
      (enableCall d ∈
          (resourceIBMPrivateDNSLocationCreate d (Except.ok ()) convertCisToTfThreeVar
            reply).calls ↔
        cr = true ∧ d.enabled = some true ∧ failed (reply 0) = false ∧
          failed (reply 1) = false ∧
          (∃ locationID, (reply 1).result.bind (fun r => r.ID) = some locationID) ∧
          (reply 2).err = none) ∧
      (enableCall d ∈
          (resourceIBMPrivateDNSLocationCreate d (Except.ok ()) convertCisToTfThreeVar
            reply).calls →
        (resourceIBMPrivateDNSLocationCreate d (Except.ok ()) convertCisToTfThreeVar
          reply).calls
          = [disableCall d, addCall d, Call.waitForPDNSCustomResolverHealthy,
            enableCall d]) := by
    rw [create_calls d convertCisToTfThreeVar reply cr hcr]
    cases h0 : failed (reply 0) <;> cases h1 : failed (reply 1) <;>
      cases hid : (reply 1).result.bind (fun r => r.ID) <;> cases cr <;>
      cases hw : (reply 2).err <;> rcases hen : d.enabled with _ | _ | _ <;>
      simp [disableCall, addCall, enableCall]
  obtain ⟨c1, c2, c3, c4, c5⟩ := hcalls
  refine ⟨c1, c2, c3, c4, c5, ?_, ?_, ?_, ?_, ?_, ?_, ?_⟩
  · exact fun h0 => create_disable_fails d convertCisToTfThreeVar reply cr hcr h0
  · exact fun h0 h1 => create_add_fails d convertCisToTfThreeVar reply cr hcr h0 h1
  · intro locationID err hcr1 hen h0 h1 hid hw
    subst hcr1
    exact create_wait_fails d convertCisToTfThreeVar reply locationID err hcr hen h0 h1 hid hw
  · intro locationID hcr1 hen h0 h1 hid hw
    subst hcr1
    exact create_enables d convertCisToTfThreeVar reply locationID hcr hen h0 h1 hid hw
  · exact fun locationID h0 h1 hid hflags =>
      create_without_enable d convertCisToTfThreeVar reply cr locationID hcr h0 h1 hid hflags
  · exact fun h0 h1 hid => create_add_without_id d convertCisToTfThreeVar reply cr hcr h0 h1 hid
  · intro r
    cases he : r.err <;> cases hr : r.result <;> simp [failed, he, hr]

/-- Witness of C25 amended: both flags are true.  When every call goes well
the run makes the disable call, the add call, the health wait and the enable
call; when the health wait fails with `not healthy` the callback returns that
error after the first three of them. -/
theorem create_choreography_witness :
    enabledLocation.crEnabled = some true ∧
    (resourceIBMPrivateDNSLocationCreate enabledLocation (Except.ok ()) joinThree
        (fun _ => fine)).calls =
      [disableCall enabledLocation, addCall enabledLocation,
        Call.waitForPDNSCustomResolverHealthy, enableCall enabledLocation] ∧
    resourceIBMPrivateDNSLocationCreate enabledLocation (Except.ok ()) joinThree
        healthWaitFails =
      { outcome := Outcome.returned { enabledLocation with id := "loc-1:res-1:inst-1" }
          (some "not healthy"),
        calls := [disableCall enabledLocation, addCall enabledLocation,
          Call.waitForPDNSCustomResolverHealthy] } :=
  ⟨rfl,
   (create_choreography enabledLocation joinThree (fun _ => fine) true rfl).2.2.2.2.1
     (by decide),
   (create_choreography enabledLocation joinThree healthWaitFails true rfl).2.2.2.2.2.2.2.1
     "loc-1" "not healthy" rfl rfl (by decide) (by decide) (by decide) (by decide)⟩

end PrivateDNSLocation
